import Mathlib

/-!
Verification of the recurring-charge audit core (canonical model, date-range
aggregation engine, rules engine, anomaly detector, explainability engine)
against its natural-language specification.

The Python source is shallowly embedded:
* Python `float` amounts are modeled by `Audit.PyF`, an exact fraction
  `num / (denPred + 1)`.  The modeled programs only ever form sums,
  differences, absolute values and guarded quotients of exactly
  representable decimal inputs, so exact fraction arithmetic and float
  arithmetic agree on every comparison the code performs.
* Python `str` is modeled by `String`, with the string operations the code
  uses re-implemented over the character list (`String.data`) so that every
  definition evaluates inside the kernel.
* Python `datetime.date` is modeled by `Audit.Date` (year, month, day)
  with the lexicographic order Python uses.
* Python dicts are modeled by insertion-ordered association lists, and
  fallible Python code (statements that can raise) returns `Except String`.
-/

namespace Audit

/-- Exact-fraction model of a Python float: the rational `num / (denPred + 1)`.
The denominator is stored minus one so that it is positive by construction. -/
structure PyF where
  num : Int
  denPred : Nat
deriving DecidableEq

/-- Denominator of a `PyF`, as a (positive) integer. -/
def PyF.den (q : PyF) : Int := (q.denPred : Int) + 1

instance : OfNat PyF n := ⟨⟨(n : Int), 0⟩⟩

instance : OfScientific PyF :=
  ⟨fun m b e => if b then ⟨(m : Int), (10 ^ e) - 1⟩ else ⟨((m * 10 ^ e : Nat) : Int), 0⟩⟩

/-- Python `a + b` on floats (exact-fraction model). -/
def PyF.add (a b : PyF) : PyF :=
  ⟨a.num * b.den + b.num * a.den, a.denPred * b.denPred + a.denPred + b.denPred⟩

/-- Python `a - b` on floats. -/
def PyF.sub (a b : PyF) : PyF :=
  ⟨a.num * b.den - b.num * a.den, a.denPred * b.denPred + a.denPred + b.denPred⟩

/-- Python `-a` on floats. -/
def PyF.neg (a : PyF) : PyF := ⟨-a.num, a.denPred⟩

/-- Python `abs(a)` on floats. -/
def PyF.abs (a : PyF) : PyF := ⟨(a.num.natAbs : Int), a.denPred⟩

/-- Python `a * b` on floats. -/
def PyF.mul (a b : PyF) : PyF :=
  ⟨a.num * b.num, a.denPred * b.denPred + a.denPred + b.denPred⟩

/-- Python `a / b` on floats.  Every division the modeled code performs is
guarded by a positivity check on the denominator; the `b.num = 0` branch
(`ZeroDivisionError` in Python) returns a junk value and is never reached. -/
def PyF.div (a b : PyF) : PyF :=
  if 0 < b.num then ⟨a.num * b.den, (a.denPred + 1) * b.num.toNat - 1⟩
  else if b.num < 0 then ⟨-(a.num * b.den), (a.denPred + 1) * (-b.num).toNat - 1⟩
  else ⟨0, 0⟩

instance : Add PyF := ⟨PyF.add⟩
instance : Sub PyF := ⟨PyF.sub⟩
instance : Neg PyF := ⟨PyF.neg⟩
instance : Mul PyF := ⟨PyF.mul⟩
instance : Div PyF := ⟨PyF.div⟩

/-- Python `a < b` on floats (cross multiplication; denominators positive). -/
def PyF.blt (a b : PyF) : Bool := a.num * b.den < b.num * a.den

/-- Python `a > b` on floats. -/
def PyF.bgt (a b : PyF) : Bool := PyF.blt b a

/-- Python `a == b` on floats (equality of the represented rationals). -/
def PyF.beq (a b : PyF) : Bool := a.num * b.den == b.num * a.den

/-- Python truthiness of a float: `0.0` is falsy, everything else truthy. -/
def PyF.truthy (a : PyF) : Bool := a.num != 0

/-- Sum of a list of floats (`sum(...)` / repeated `+=`, starting from 0). -/
def PyF.lsum (l : List PyF) : PyF := l.foldl PyF.add 0

/- ### String helpers (over the character list, so they evaluate) -/

/-- ASCII lower-casing of one character (model of `str.lower` on the
character sets the code uses). -/
def lowerChar (c : Char) : Char := c.toLower

/-- Python `s.lower()`. -/
def strLower (s : String) : String := String.mk (s.data.map lowerChar)

/-- Python `s.strip()` (drop leading and trailing whitespace). -/
def strTrim (s : String) : String :=
  String.mk (((s.data.dropWhile Char.isWhitespace).reverse.dropWhile Char.isWhitespace).reverse)

/-- List infix test used to model Python's substring operator `in`. -/
def isInfixL (n : List Char) : List Char → Bool
  | [] => n.isEmpty
  | c :: t => n.isPrefixOf (c :: t) || isInfixL n t

/-- Python `needle in hay` on strings. -/
def strContains (hay needle : String) : Bool := isInfixL needle.data hay.data

/-- Python `s.startswith(p)`. -/
def strStartsWith (s p : String) : Bool := p.data.isPrefixOf s.data

/-- Python `s.lstrip("*")` (drop every leading asterisk). -/
def dropLeadStars (s : String) : String := String.mk (s.data.dropWhile (· == '*'))

/-- Lexicographic character-list comparison (Python string `<` / `>`). -/
def cmpCharList : List Char → List Char → Ordering
  | [], [] => .eq
  | [], _ :: _ => .lt
  | _ :: _, [] => .gt
  | a :: s, b :: t =>
    if a < b then .lt else if b < a then .gt else cmpCharList s t

/-- Python string comparison. -/
def cmpStr (a b : String) : Ordering := cmpCharList a.data b.data

/-- Python truthiness of an optional string: `None` and `""` are falsy. -/
def truthyOptStr : Option String → Bool
  | none => false
  | some s => !s.data.isEmpty

/-- Python `x or y` where both sides are optional strings. -/
def pyOrStr (x y : Option String) : Option String := if truthyOptStr x then x else y

/- ### Dates -/

/-- Model of `datetime.date`. -/
structure Date where
  year : Nat
  month : Nat
  day : Nat
deriving DecidableEq

/-- Python date `<` (lexicographic on year, month, day). -/
def Date.blt (a b : Date) : Bool :=
  a.year < b.year ||
    (a.year == b.year && (a.month < b.month || (a.month == b.month && a.day < b.day)))

/-- Python date `<=`. -/
def Date.ble (a b : Date) : Bool := Date.blt a b || a == b

/-- Three-month abbreviations used by `strftime('%b %Y')`. -/
def monthAbbrev (m : Nat) : String :=
  (["Jan", "Feb", "Mar", "Apr", "May", "Jun", "Jul", "Aug", "Sep", "Oct", "Nov",
    "Dec"].getD (m - 1) "")

/-- Decimal digit characters of a natural number (most significant first).
The first argument is fuel; `n` itself is always enough fuel. -/
def natDigitsAux : Nat → Nat → List Char
  | 0, _ => []
  | fuel + 1, n =>
    if n == 0 then [] else natDigitsAux fuel (n / 10) ++ [Char.ofNat (48 + n % 10)]

/-- Decimal rendering of a natural number (model of `str` on an int). -/
def natToStr (n : Nat) : String :=
  if n == 0 then "0" else String.mk (natDigitsAux n n)

/-- Python `d.strftime('%b %Y')`. -/
def Date.fmtMonthYear (d : Date) : String :=
  monthAbbrev d.month ++ " " ++ natToStr d.year

/-- Python `x or y` where both sides are optional dates (a date is always
truthy, `None` is falsy). -/
def pyOrDate (x y : Option Date) : Option Date := if x.isSome then x else y

/-- Python truthiness of an optional float: `None` and `0.0` are falsy. -/
def truthyOptF : Option PyF → Bool
  | none => false
  | some q => q.truthy

/-- Python `x or y` where both sides are optional floats. -/
def pyOrF (x y : Option PyF) : Option PyF := if truthyOptF x then x else y

/- ### Data model (`src/models/unit.py`) -/

/-- `Unit` dataclass: one rental unit. -/
structure Unit where
  unit_id : String
  unit_number : String
  resident_name : Option String := none
  is_employee_unit : Bool := false
  lease_start : Option Date := none
  lease_end : Option Date := none
  base_rent : Option PyF := none
deriving DecidableEq

/-- `Unit.__post_init__`: a resident name beginning with the employee marker
`*` forces `is_employee_unit` and is stored with every leading asterisk
removed and surrounding whitespace stripped.  Runs once, at construction. -/
def mkUnit (u : Unit) : Unit :=
  match u.resident_name with
  | some s =>
    if strStartsWith s "*" then
      { u with is_employee_unit := true, resident_name := some (strTrim (dropLeadStars s)) }
    else u
  | none => u

/-- `RecurringTransaction` dataclass: one dated charge, credit, fee or
concession line. -/
structure RecurringTransaction where
  transaction_id : String
  unit_id : String
  unit_number : String
  category : String
  subcategory : Option String := none
  amount : PyF := 0
  month : Option Date := none
  description : Option String := none
  source : String := "unknown"
deriving DecidableEq

/-- Values an evidence dict can hold (numbers, strings, booleans, `None`,
and the string list stored under `expected_fees` / `actual_fees`). -/
inductive EvValue where
  | num (q : PyF)
  | str (s : String)
  | bool (b : Bool)
  | none
  | strList (l : List String)
deriving DecidableEq

/-- Evidence dicts, as insertion-ordered association lists. -/
abbrev Evidence := List (String × EvValue)

/-- Python `evidence.get(k)` (first binding wins, as in a dict). -/
def Evidence.get (ev : Evidence) (k : String) : Option EvValue :=
  (ev.find? (fun p => p.1 == k)).map (·.2)

/-- Python `evidence.get(k, dflt)`. -/
def Evidence.getD (ev : Evidence) (k : String) (dflt : EvValue) : EvValue :=
  (Evidence.get ev k).getD dflt

/-- Evidence value of an optional string field (`None` becomes `EvValue.none`). -/
def evOfOptStr : Option String → EvValue
  | Option.none => .none
  | Option.some s => .str s

/-- `AuditFinding` dataclass: one flagged anomaly.  `created_at` is set by
`__post_init__` to the current day; the engine functions below thread the
current day in explicitly. -/
structure AuditFinding where
  finding_id : String
  unit_id : String
  unit_number : String
  rule_id : String
  rule_name : String
  severity : String
  month : Option Date := none
  delta : Option PyF := none
  evidence : Evidence := []
  explanation : String := ""
  status : String := "Open"
  notes : String := ""
  created_at : Option Date := none
deriving DecidableEq

/- ### Settings (`src/config/settings.py`) -/

/-- `RECURRING_FEE_TEMPLATE`: standard recurring charges. -/
def RECURRING_FEE_TEMPLATE : List (String × PyF) :=
  [("Billing Fee", 5.00), ("Cable", 55.00), ("CAM", 10.00), ("HOA", 2.50),
   ("Trash", 10.00), ("Valet Trash", 35.00), ("Package Locker", 9.00),
   ("Pest Control", 8.00)]

/-- Keys of the recurring fee template, in order (`list(template.keys())`). -/
def recurringFeeNames : List String := RECURRING_FEE_TEMPLATE.map (·.1)

/-- Template lookup (`name in template` / `template[name]`). -/
def templateLookup (name : String) : Option PyF :=
  (RECURRING_FEE_TEMPLATE.find? (fun p => p.1 == name)).map (·.2)

def LEASE_CLIFF_THRESHOLD : PyF := 0.20

def EXCESSIVE_CONCESSION_THRESHOLD : PyF := 0.50

def FEE_TOLERANCE : PyF := 0.01

def SEVERITY_CRITICAL : String := "Critical"

def SEVERITY_HIGH : String := "High"

def SEVERITY_MEDIUM : String := "Medium"

def SEVERITY_LOW : String := "Low"

/- ### Canonical model (`src/models/canonical_model.py`) -/

/-- Loaded category-mapping table (keyword lists per category). -/
structure Mappings where
  rent_categories : List String
  concession_categories : List String
  credit_categories : List String
  fee_categories : List (String × List String)
deriving DecidableEq

/-- Built-in default mappings used by `_load_mappings` when
`config/mappings.yaml` cannot be opened (`FileNotFoundError` branch). -/
def defaultMappings : Mappings :=
  { rent_categories := ["Rent", "Base Rent", "Monthly Rent"]
    concession_categories := ["Concession", "Discount"]
    credit_categories := ["Credit", "Adjustment"]
    fee_categories := [] }

/-- `_load_mappings`: the external mapping source when available, else the
built-in default. -/
def loadMappings (src : Option Mappings) : Mappings := src.getD defaultMappings

/-- Modelled from the spec: the repository's `config/mappings.yaml` is not
among the captured source files (only its loader and the spec describe it).
Per the spec it supplies rent, concession and credit keyword lists plus a
fee-category table whose `valet_trash` entry matches descriptions such as
"Valet Trash Fee" (the spec's round-trip property pins that entry); the
remaining fee subcategories are those of `_map_fee_to_template`. -/
def yamlMappings : Mappings :=
  { rent_categories := ["Rent", "Base Rent", "Monthly Rent"]
    concession_categories := ["Concession", "Discount"]
    credit_categories := ["Credit", "Adjustment"]
    fee_categories :=
      [("billing_fee", ["Billing Fee"]), ("cable", ["Cable"]), ("cam", ["CAM"]),
       ("hoa", ["HOA"]), ("valet_trash", ["Valet Trash"]), ("trash", ["Trash"]),
       ("package_locker", ["Package Locker"]), ("pest_control", ["Pest Control"])] }

/-- Keyword match: `term.lower() in description_lower`. -/
def termMatches (dl : String) (term : String) : Bool := strContains dl (strLower term)

/-- `CanonicalModel.normalize_category`: map a free-text charge description
to a canonical category and subcategory, first match winning in the order
concession, credit, rent, fee table, other. -/
def normalize_category (m : Mappings) (description : String) : String × Option String :=
  let dl := strTrim (strLower description)
  if m.concession_categories.any (termMatches dl) then ("concession", none)
  else if m.credit_categories.any (termMatches dl) then ("credit", none)
  else if m.rent_categories.any (termMatches dl) then ("rent", none)
  else
    match m.fee_categories.find? (fun p => p.2.any (termMatches dl)) with
    | some p => ("fee", some p.1)
    | none => ("other", none)

/-- The canonical model's mutable state (the mapping table is fixed after
construction, and the lease / finding lists play no part in the claims). -/
structure CanonicalModel where
  units : List Unit
  transactions : List RecurringTransaction
  mappings : Mappings
deriving DecidableEq

/-- Field-by-field merge performed by `add_unit` on an existing unit:
`existing.f = unit.f or existing.f` for each optional field and
`or` of the booleans. -/
def mergeUnit (existing incoming : Unit) : Unit :=
  { existing with
    resident_name := pyOrStr incoming.resident_name existing.resident_name
    is_employee_unit := incoming.is_employee_unit || existing.is_employee_unit
    lease_start := pyOrDate incoming.lease_start existing.lease_start
    lease_end := pyOrDate incoming.lease_end existing.lease_end
    base_rent := pyOrF incoming.base_rent existing.base_rent }

/-- Apply `f` to the first unit in the list with the given id (Python's
`next(u for u in self.units if ...)` mutates that one unit in place). -/
def updateFirstUnit (l : List Unit) (uid : String) (f : Unit → Unit) : List Unit :=
  match l with
  | [] => []
  | e :: t => if e.unit_id == uid then f e :: t else e :: updateFirstUnit t uid f

/-- `CanonicalModel.add_unit`: merge into the first existing unit with the
same `unit_id`, else append. -/
def add_unit (m : CanonicalModel) (u : Unit) : CanonicalModel :=
  if m.units.any (fun e => e.unit_id == u.unit_id) then
    { m with units := updateFirstUnit m.units u.unit_id (fun e => mergeUnit e u) }
  else
    { m with units := m.units ++ [u] }

/-- `RulesEngine._map_fee_to_template`: fee subcategory to template name. -/
def map_fee_to_template (subcategory : String) : Option String :=
  ([("billing_fee", "Billing Fee"), ("cable", "Cable"), ("cam", "CAM"),
    ("hoa", "HOA"), ("trash", "Trash"), ("valet_trash", "Valet Trash"),
    ("package_locker", "Package Locker"), ("pest_control", "Pest Control")]
    |>.find? (fun p => p.1 == subcategory)).map (·.2)

/- ### Rules engine (`src/engine/rules.py`) -/

/-- Embed a Python int (a list length) as a float value. -/
def PyF.ofNat (n : Nat) : PyF := ⟨(n : Int), 0⟩

/-- The `units_by_id` index (`{u.unit_id: u for u in units}`): for duplicate
ids the dict comprehension keeps the last unit. -/
def unitsById (units : List Unit) (uid : String) : Option Unit :=
  units.reverse.find? (fun u => u.unit_id == uid)

/-- `unit.unit_number if unit else fallback` after an index lookup. -/
def unitNumberOr (units : List Unit) (uid fallback : String) : String :=
  match unitsById units uid with
  | some u => u.unit_number
  | none => fallback

/-- The `transactions_by_unit` multimap: grouping by append preserves the
original relative order, i.e. it is a filter. -/
def txnsByUnit (txns : List RecurringTransaction) (uid : String) :
    List RecurringTransaction :=
  txns.filter (fun t => t.unit_id == uid)

/-- First-appearance deduplication: the key order of a Python dict built by
iterating a list. -/
def dedupFirst [BEq α] (l : List α) : List α :=
  l.foldl (fun acc x => if acc.contains x then acc else acc ++ [x]) []

/-- Insert a date into a sorted list (ascending). -/
def insertDate (d : Date) : List Date → List Date
  | [] => [d]
  | e :: t => if Date.ble d e then d :: e :: t else e :: insertDate d t

/-- Python `sorted` on a list of dates. -/
def sortDates (l : List Date) : List Date := l.foldr insertDate []

/-- Consecutive pairs `(l[i-1], l[i])` for `i in range(1, len(l))`. -/
def consecPairs (l : List α) : List (α × α) := l.zip l.tail

/-- Rent transactions that carry a month (the ones `check_lease_cliff`
accumulates into `unit_monthly_rent`). -/
def rentMonthTxns (txns : List RecurringTransaction) : List RecurringTransaction :=
  txns.filter (fun t => t.category == "rent" && t.month.isSome)

/-- Unit ids in `unit_monthly_rent`, in first-appearance order. -/
def cliffUnitIds (txns : List RecurringTransaction) : List String :=
  dedupFirst ((rentMonthTxns txns).map (·.unit_id))

/-- Months recorded for one unit in `unit_monthly_rent`. -/
def cliffMonths (txns : List RecurringTransaction) (uid : String) : List Date :=
  dedupFirst ((rentMonthTxns txns).filterMap
    (fun t => if t.unit_id == uid then t.month else none))

/-- `unit_monthly_rent[uid][m]`: the accumulated rent sum. -/
def monthlyRentSum (txns : List RecurringTransaction) (uid : String) (m : Date) : PyF :=
  PyF.lsum (((rentMonthTxns txns).filter
    (fun t => t.unit_id == uid && t.month == some m)).map (·.amount))

/-- The finding `check_lease_cliff` emits for one qualifying month pair. -/
def cliffFinding (units : List Unit) (txns : List RecurringTransaction)
    (today : Date) (uid : String) (pm : Date × Date) : AuditFinding :=
  let prev_rent := monthlyRentSum txns uid pm.1
  let curr_rent := monthlyRentSum txns uid pm.2
  let drop_pct := (prev_rent - curr_rent) / prev_rent
  { finding_id := ""
    unit_id := uid
    unit_number := unitNumberOr units uid uid
    rule_id := "LEASE_CLIFF"
    rule_name := "Lease Cliff Risk"
    severity := if drop_pct.bgt 0.5 then SEVERITY_CRITICAL else SEVERITY_HIGH
    month := some pm.2
    delta := some (-(prev_rent - curr_rent))
    evidence := [("prev_month", .str pm.1.fmtMonthYear),
                 ("prev_rent", .num prev_rent),
                 ("curr_month", .str pm.2.fmtMonthYear),
                 ("curr_rent", .num curr_rent),
                 ("drop_pct", .num drop_pct)]
    created_at := some today }

/-- `RulesEngine.check_lease_cliff` (rule A): per unit, per consecutive
month pair of the sorted rent months, flag drops above the threshold.
Finding ids are assigned positionally afterwards (see `assignIds`). -/
def check_lease_cliff (units : List Unit) (txns : List RecurringTransaction)
    (today : Date) : List AuditFinding :=
  (cliffUnitIds txns).flatMap (fun uid =>
    (consecPairs (sortDates (cliffMonths txns uid))).filterMap (fun pm =>
      if (monthlyRentSum txns uid pm.1).bgt 0 then
        if ((monthlyRentSum txns uid pm.1 - monthlyRentSum txns uid pm.2) /
            monthlyRentSum txns uid pm.1).bgt LEASE_CLIFF_THRESHOLD then
          some (cliffFinding units txns today uid pm)
        else none
      else none))

/-- The value of `is_proration` in `check_rent_proration_mismatch`: the
Python `and` chain yields `None` when `lease_start` or the month is `None`,
else the boolean month comparison. -/
def isProrationVal (u : Unit) (t : RecurringTransaction) : EvValue :=
  match u.lease_start with
  | Option.none => .none
  | Option.some ls =>
    match t.month with
    | Option.none => .none
    | Option.some m => .bool (m.year == ls.year && m.month == ls.month)

/-- Truthiness of `is_proration`. -/
def isProrationB (u : Unit) (t : RecurringTransaction) : Bool :=
  match u.lease_start, t.month with
  | some ls, some m => m.year == ls.year && m.month == ls.month
  | _, _ => false

/-- `txn.month.strftime('%b %Y') if txn.month else 'Unknown'`. -/
def monthStrOrUnknown : Option Date → String
  | some m => m.fmtMonthYear
  | none => "Unknown"

/-- The finding `check_rent_proration_mismatch` emits for one flagged rent
transaction of a unit with (truthy) base rent `b`. -/
def prorationFinding (u : Unit) (b : PyF) (t : RecurringTransaction)
    (today : Date) : AuditFinding :=
  { finding_id := ""
    unit_id := u.unit_id
    unit_number := u.unit_number
    rule_id := "RENT_PRORATION"
    rule_name := "Rent Proration Mismatch"
    severity := SEVERITY_MEDIUM
    month := t.month
    delta := some (t.amount - b)
    evidence := [("expected_rent", .num b),
                 ("actual_rent", .num t.amount),
                 ("month", .str (monthStrOrUnknown t.month)),
                 ("is_lease_start", isProrationVal u t)]
    created_at := some today }

/-- `RulesEngine.check_rent_proration_mismatch` (rule B1): flag when the
difference exceeds the tolerance and `not is_proration or amount > base`. -/
def check_rent_proration_mismatch (units : List Unit)
    (txns : List RecurringTransaction) (today : Date) : List AuditFinding :=
  units.flatMap (fun u =>
    if !truthyOptF u.base_rent then []
    else
      let b := u.base_rent.getD 0
      ((txnsByUnit txns u.unit_id).filter (fun t => t.category == "rent")).filterMap
        (fun t =>
          if ((t.amount - b).abs).bgt 1.0 then
            if !isProrationB u t || t.amount.bgt b then
              some (prorationFinding u b t today)
            else none
          else none))

/-- Modelled on the claim's wording of RENT_PRORATION: for a unit with a
base rent, a rent transaction is flagged iff its amount differs from the
base rent by more than one dollar and it is not a valid proration, where a
valid proration requires the transaction month to equal the lease-start
month and the amount to be less than the base rent. -/
def rentProrationSpec (units : List Unit)
    (txns : List RecurringTransaction) (today : Date) : List AuditFinding :=
  units.flatMap (fun u =>
    if !truthyOptF u.base_rent then []
    else
      let b := u.base_rent.getD 0
      ((txnsByUnit txns u.unit_id).filter (fun t => t.category == "rent")).filterMap
        (fun t =>
          if ((t.amount - b).abs).bgt 1.0 && !(isProrationB u t && t.amount.blt b) then
            some (prorationFinding u b t today)
          else none))

/-- `RulesEngine.check_concession_misalignment` (rule B2). -/
def check_concession_misalignment (units : List Unit)
    (txns : List RecurringTransaction) (today : Date) : List AuditFinding :=
  units.flatMap (fun u =>
    let ut := txnsByUnit txns u.unit_id
    let rent_months := (ut.filter (fun t => t.category == "rent")).filterMap (·.month)
    (ut.filter (fun t => t.category == "concession")).filterMap (fun conc =>
      match conc.month with
      | Option.none => none
      | Option.some cm =>
        if rent_months.contains cm then none
        else
          some { finding_id := ""
                 unit_id := u.unit_id
                 unit_number := u.unit_number
                 rule_id := "CONCESSION_MISALIGNED"
                 rule_name := "Concession Misaligned"
                 severity := SEVERITY_MEDIUM
                 month := some cm
                 delta := some conc.amount
                 evidence := [("concession_month", .str cm.fmtMonthYear),
                              ("concession_amount", .num conc.amount.abs),
                              ("has_rent_in_month", .bool false)]
                 created_at := some today }))

/-- Months in `monthly_data` of `check_excessive_concession`: first
appearance among the unit's dated rent and concession transactions. -/
def excessiveMonths (ut : List RecurringTransaction) : List Date :=
  dedupFirst (ut.filterMap (fun t =>
    match t.month with
    | some m =>
      if t.category == "rent" || t.category == "concession" then some m else none
    | none => none))

/-- `RulesEngine.check_excessive_concession` (rule B3). -/
def check_excessive_concession (units : List Unit)
    (txns : List RecurringTransaction) (today : Date) : List AuditFinding :=
  units.flatMap (fun u =>
    let ut := txnsByUnit txns u.unit_id
    (excessiveMonths ut).filterMap (fun m =>
      let rent := PyF.lsum ((ut.filter
        (fun t => t.category == "rent" && t.month == some m)).map (·.amount))
      let conc := PyF.lsum ((ut.filter
        (fun t => t.category == "concession" && t.month == some m)).map (fun t => t.amount.abs))
      if rent.bgt 0 then
        let conc_pct := conc / rent
        if conc_pct.bgt EXCESSIVE_CONCESSION_THRESHOLD then
          some { finding_id := ""
                 unit_id := u.unit_id
                 unit_number := u.unit_number
                 rule_id := "EXCESSIVE_CONCESSION"
                 rule_name := "Excessive Concession"
                 severity := SEVERITY_HIGH
                 month := some m
                 delta := some (-conc)
                 evidence := [("month", .str m.fmtMonthYear), ("rent", .num rent),
                              ("concession", .num conc),
                              ("concession_pct", .num conc_pct)]
                 created_at := some today }
        else none
      else none))

/-- `RulesEngine.check_missing_recurring_charges` (rule C1). -/
def check_missing_recurring_charges (units : List Unit)
    (txns : List RecurringTransaction) (today : Date) : List AuditFinding :=
  units.filterMap (fun u =>
    let ut := txnsByUnit txns u.unit_id
    let fee_txns := ut.filter (fun t => t.category == "fee")
    let rent_txns := ut.filter (fun t => t.category == "rent")
    if !rent_txns.isEmpty && fee_txns.isEmpty then
      some { finding_id := ""
             unit_id := u.unit_id
             unit_number := u.unit_number
             rule_id := "MISSING_RECURRING_CHARGE"
             rule_name := "Missing Recurring Charges"
             severity := SEVERITY_LOW
             month := none
             delta := none
             evidence := [("expected_fees", .strList recurringFeeNames),
                          ("actual_fees", .strList [])]
             created_at := some today }
    else none)

/-- `RulesEngine.check_fee_amount_mismatch` (rule C2). -/
def check_fee_amount_mismatch (units : List Unit)
    (txns : List RecurringTransaction) (today : Date) : List AuditFinding :=
  txns.filterMap (fun t =>
    if t.category == "fee" && truthyOptStr t.subcategory then
      match map_fee_to_template (t.subcategory.getD "") with
      | Option.none => none
      | Option.some name =>
        match templateLookup name with
        | Option.none => none
        | Option.some expected =>
          if ((t.amount - expected).abs).bgt FEE_TOLERANCE then
            some { finding_id := ""
                   unit_id := t.unit_id
                   unit_number := unitNumberOr units t.unit_id t.unit_number
                   rule_id := "FEE_AMOUNT_MISMATCH"
                   rule_name := "Fee Amount Mismatch"
                   severity := SEVERITY_LOW
                   month := t.month
                   delta := some (t.amount - expected)
                   evidence := [("fee_type", .str name),
                                ("expected_amount", .num expected),
                                ("actual_amount", .num t.amount),
                                ("month", .str (monthStrOrUnknown t.month))]
                   created_at := some today }
          else none
    else none)

/-- `RulesEngine.check_double_discount` (rule D). -/
def check_double_discount (units : List Unit)
    (txns : List RecurringTransaction) (today : Date) : List AuditFinding :=
  units.filterMap (fun u =>
    if u.is_employee_unit then
      let conc := (txnsByUnit txns u.unit_id).filter (fun t => t.category == "concession")
      if !conc.isEmpty then
        let total := PyF.lsum (conc.map (fun t => t.amount.abs))
        some { finding_id := ""
               unit_id := u.unit_id
               unit_number := u.unit_number
               rule_id := "DOUBLE_DISCOUNT"
               rule_name := "Double Discount Risk"
               severity := SEVERITY_CRITICAL
               month := none
               delta := some (-total)
               evidence := [("is_employee_unit", .bool true),
                            ("resident_name", evOfOptStr u.resident_name),
                            ("total_concessions", .num total),
                            ("concession_count", .num (PyF.ofNat conc.length))]
               created_at := some today }
      else none
    else none)

/-- State of a `RulesEngine` instance (units and transactions snapshot plus
the `self.findings` list it overwrites on every run). -/
structure RulesEngine where
  units : List Unit
  transactions : List RecurringTransaction
  findings : List AuditFinding
deriving DecidableEq

/-- Positional assignment of the ids `generate_id` produces: `gen i` is the
(random) id handed out by the i-th call. -/
def assignIds (gen : Nat → String) : Nat → List AuditFinding → List AuditFinding
  | _, [] => []
  | i, f :: t => { f with finding_id := gen i } :: assignIds gen (i + 1) t

/-- The findings of one pass, in emission order, before id assignment. -/
def allRuleFindings (units : List Unit) (txns : List RecurringTransaction)
    (today : Date) : List AuditFinding :=
  check_lease_cliff units txns today
    ++ check_rent_proration_mismatch units txns today
    ++ check_concession_misalignment units txns today
    ++ check_excessive_concession units txns today
    ++ check_missing_recurring_charges units txns today
    ++ check_fee_amount_mismatch units txns today
    ++ check_double_discount units txns today

/-- `RulesEngine.run_all_rules`: reset `self.findings` to empty, run the
seven rules, return the findings and the updated engine state. -/
def run_all_rules (e : RulesEngine) (gen : Nat → String) (today : Date) :
    List AuditFinding × RulesEngine :=
  let fs := assignIds gen 0 (allRuleFindings e.units e.transactions today)
  (fs, { e with findings := fs })

/-- The comparison tuple the spec uses for finding identity across runs. -/
def findingTuple (f : AuditFinding) :
    String × String × Option Date × String × Evidence :=
  (f.unit_id, f.rule_id, f.month, f.severity, f.evidence)

/- ### Anomaly detector (`src/engine/anomaly_detector.py`) -/

/-- `severity_order.get(f.severity, 999)`. -/
def severityRank (s : String) : Nat :=
  if s == "Critical" then 0
  else if s == "High" then 1
  else if s == "Medium" then 2
  else if s == "Low" then 3
  else 999

/-- The third sort-key component `f.month or ''`: either the empty string
(month `None`) or a date.  In Python the two variants cannot be compared
with each other. -/
inductive MonthKey where
  | emptyStr
  | date (d : Date)
deriving DecidableEq

/-- Key component for a finding's month. -/
def monthKey : Option Date → MonthKey
  | none => .emptyStr
  | some d => .date d

/-- Comparison of two month-key components; mixed comparisons raise
`TypeError` in Python. -/
def cmpMonthKey : MonthKey → MonthKey → Except String Ordering
  | .emptyStr, .emptyStr => .ok .eq
  | .date a, .date b =>
    .ok (if Date.blt a b then .lt else if Date.blt b a then .gt else .eq)
  | _, _ => .error "TypeError: cannot compare datetime.date and str"

/-- Comparison of the full sort keys
`(severity_order.get(f.severity, 999), f.unit_number, f.month or '')`;
tuple comparison short-circuits left to right. -/
def cmpKey (f g : AuditFinding) : Except String Ordering :=
  if severityRank f.severity < severityRank g.severity then .ok .lt
  else if severityRank g.severity < severityRank f.severity then .ok .gt
  else
    match cmpStr f.unit_number g.unit_number with
    | .lt => .ok .lt
    | .gt => .ok .gt
    | .eq => cmpMonthKey (monthKey f.month) (monthKey g.month)

/-- Key order as a boolean (defined comparisons that are not `gt`). -/
def keyLeB (f g : AuditFinding) : Bool :=
  match cmpKey f g with
  | .ok .lt => true
  | .ok .eq => true
  | _ => false

/-- Adjacent-pairs sortedness under a boolean order. -/
def isSortedByB (le : α → α → Bool) : List α → Bool
  | [] => true
  | [_] => true
  | f :: g :: t => le f g && isSortedByB le (g :: t)

/-- Insertion into a sorted prefix; propagates the `TypeError` a Python key
comparison can raise. -/
def insertSortedE (f : AuditFinding) : List AuditFinding → Except String (List AuditFinding)
  | [] => .ok [f]
  | g :: t =>
    match cmpKey f g with
    | .error e => .error e
    | .ok .gt => (insertSortedE f t).map (g :: ·)
    | .ok _ => .ok (f :: g :: t)

/-- Model of `list.sort(key=...)`: a comparison sort that raises as soon as
it compares two keys Python cannot order.  (Python's Timsort performs a
different comparison sequence, but both sorts succeed on exactly the inputs
whose compared keys are pairwise orderable, and on a two-element list both
must compare the unique pair.) -/
def sortFindingsE : List AuditFinding → Except String (List AuditFinding)
  | [] => .ok []
  | f :: t =>
    match sortFindingsE t with
    | .error e => .error e
    | .ok st => insertSortedE f st

/-- `AnomalyDetector.detect`: one rules pass, then the severity sort. -/
def detect (units : List Unit) (txns : List RecurringTransaction)
    (gen : Nat → String) (today : Date) : Except String (List AuditFinding) :=
  sortFindingsE (run_all_rules ⟨units, txns, []⟩ gen today).1

/- ### Date range engine (`src/engine/date_range_engine.py`) -/

/-- One month's bucket in `aggregate_by_month`. -/
structure MonthBucket where
  rent : PyF
  concessions : PyF
  fees : PyF
  credits : PyF
  net : PyF
deriving DecidableEq

/-- The freshly initialised bucket. -/
def emptyBucket : MonthBucket := ⟨0, 0, 0, 0, 0⟩

/-- `DateRangeEngine.filter_by_date_range`. -/
def filter_by_date_range (txns : List RecurringTransaction)
    (s e : Option Date) : List RecurringTransaction :=
  let f1 := match s with
    | none => txns
    | some sd => txns.filter (fun t =>
        match t.month with
        | some m => Date.ble sd m
        | none => false)
  match e with
  | none => f1
  | some ed => f1.filter (fun t =>
      match t.month with
      | some m => Date.ble m ed
      | none => false)

/-- The category dispatch of `aggregate_by_month` on one transaction. -/
def addTxnToBucket (b : MonthBucket) (t : RecurringTransaction) : MonthBucket :=
  if t.category == "rent" then
    { b with rent := b.rent + t.amount, net := b.net + t.amount }
  else if t.category == "concession" then
    { b with concessions := b.concessions + t.amount.abs, net := b.net + t.amount }
  else if t.category == "fee" then
    { b with fees := b.fees + t.amount, net := b.net + t.amount }
  else if t.category == "credit" then
    { b with credits := b.credits + t.amount.abs, net := b.net + t.amount }
  else b

/-- Update the insertion-ordered month dict with one transaction (creating
the month's bucket if absent, as the Python membership test does). -/
def updateMonthAL (acc : List (Date × MonthBucket)) (m : Date)
    (t : RecurringTransaction) : List (Date × MonthBucket) :=
  match acc with
  | [] => [(m, addTxnToBucket emptyBucket t)]
  | (k, b) :: rest =>
    if k == m then (k, addTxnToBucket b t) :: rest
    else (k, b) :: updateMonthAL rest m t

/-- One loop iteration of `aggregate_by_month`: transactions without a
month are skipped, the rest update their month's bucket. -/
def aggStep (acc : List (Date × MonthBucket)) (t : RecurringTransaction) :
    List (Date × MonthBucket) :=
  match t.month with
  | none => acc
  | some m => updateMonthAL acc m t

/-- `DateRangeEngine.aggregate_by_month`. -/
def aggregate_by_month (txns : List RecurringTransaction)
    (s e : Option Date) : List (Date × MonthBucket) :=
  (filter_by_date_range txns s e).foldl aggStep []

/-- Dict lookup on the month dict. -/
def alLookup (l : List (Date × MonthBucket)) (m : Date) : Option MonthBucket :=
  (l.find? (fun p => p.1 == m)).map (·.2)

/-- Folding one month's transactions into a bucket. -/
def monthFold (l : List RecurringTransaction) (b : MonthBucket) : MonthBucket :=
  l.foldl addTxnToBucket b

/-- The categories that contribute (their signed amount) to `net`. -/
def netCat (t : RecurringTransaction) : Bool :=
  t.category == "rent" || t.category == "concession" ||
    t.category == "fee" || t.category == "credit"

/-- Modelled on the claim's wording of the bucket convention: among the
filtered transactions of month `m`, rent and fees hold their signed sums,
concessions and credits hold sums of absolute values, and `net` is the
signed sum over all four categories (so a negative concession or credit
decreases `net`). -/
def bucketSpec (l : List RecurringTransaction) (m : Date) : MonthBucket :=
  let atM := l.filter (fun t => t.month == some m)
  { rent := PyF.lsum ((atM.filter (fun t => t.category == "rent")).map (·.amount))
    concessions :=
      PyF.lsum ((atM.filter (fun t => t.category == "concession")).map (fun t => t.amount.abs))
    fees := PyF.lsum ((atM.filter (fun t => t.category == "fee")).map (·.amount))
    credits :=
      PyF.lsum ((atM.filter (fun t => t.category == "credit")).map (fun t => t.amount.abs))
    net := PyF.lsum ((atM.filter netCat).map (·.amount)) }

/- ### Formatting helpers (`src/utils/helpers.py`) -/

/-- Round half to even of `n / d` (for `d > 0`): the rounding Python's fixed
precision float formatting performs. -/
def rhe (n d : Int) : Int :=
  let q := n.ediv d
  let r := n.emod d
  if 2 * r < d then q
  else if d < 2 * r then q + 1
  else if q.emod 2 == 0 then q else q + 1

/-- Decimal digits with a comma every three (model of the `,` option of
Python format specs); input and output are little-endian digit lists. -/
def commaGroupRev : List Char → List Char
  | a :: b :: c :: d :: rest => a :: b :: c :: ',' :: commaGroupRev (d :: rest)
  | l => l

/-- Comma-grouped decimal rendering of a natural number. -/
def natGrouped (n : Nat) : String :=
  if n == 0 then "0"
  else String.mk ((commaGroupRev (natDigitsAux n n).reverse).reverse)

/-- Python `f"{x:,.2f}"` for a nonnegative float (the only values the code
formats this way, since `format_currency` takes the absolute value first). -/
def fmt2 (x : PyF) : String :=
  let cents := rhe (x.num * 100) x.den
  let cp := (cents.emod 100).toNat
  natGrouped (cents.ediv 100).toNat ++ "." ++
    (if cp < 10 then "0" ++ natToStr cp else natToStr cp)

/-- `helpers.format_currency`. -/
def format_currency (amount : PyF) : String :=
  if amount.blt 0 then "-$" ++ fmt2 amount.abs else "$" ++ fmt2 amount

/-- Python `f"{x:.1f}"` for a nonnegative float. -/
def fmt1abs (x : PyF) : String :=
  let tenths := rhe (x.num * 10) x.den
  natToStr (tenths.ediv 10).toNat ++ "." ++ natToStr (tenths.emod 10).toNat

/-- Python `f"{x:.1f}"` (sign split; round half to even is symmetric). -/
def fmt1 (x : PyF) : String :=
  if x.blt 0 then "-" ++ fmt1abs x.abs else fmt1abs x

/-- `helpers.format_percentage`: `f"{value * 100:.1f}%"`. -/
def format_percentage (value : PyF) : String := fmt1 (x := value * (100 : PyF)) ++ "%"

/- ### Explainability engine (`src/engine/explainability.py`) -/

/-- Rendering of a float under `str` (f-string interpolation).  Python
prints the shortest round-tripping decimal of the underlying double; the
exact digits never matter to any claim, so the fraction is rendered
directly. -/
def pyStrF (q : PyF) : String :=
  (if q.num < 0 then "-" else "") ++ natToStr q.num.natAbs ++
    (if q.denPred == 0 then ".0" else "/" ++ natToStr (q.denPred + 1))

/-- Rendering of a string list under `str` (Python uses quoted elements;
the quoting detail never matters to any claim). -/
def pyStrList (l : List String) : String :=
  "[" ++ String.intercalate ", " l ++ "]"

/-- `str(value)`: the total f-string rendering of any evidence value. -/
def pyStrEv : EvValue → String
  | .num q => pyStrF q
  | .str s => s
  | .bool b => if b then "True" else "False"
  | .none => "None"
  | .strList l => pyStrList l

/-- Python truthiness of an evidence value. -/
def evTruthy : EvValue → Bool
  | .num q => q.truthy
  | .str s => !s.data.isEmpty
  | .bool b => b
  | .none => false
  | .strList l => !l.isEmpty

/-- Using an evidence value as a number (arithmetic, numeric comparison or
`:,.2f` / `:.1f` formatting): booleans coerce like Python ints, every other
non-number raises. -/
def asNum : EvValue → Except String PyF
  | .num q => .ok q
  | .bool b => .ok (if b then 1 else 0)
  | .str _ => .error "TypeError: unsupported operand or format for str"
  | .none => .error "TypeError: unsupported operand or format for NoneType"
  | .strList _ => .error "TypeError: unsupported operand or format for list"

/-- Using an evidence value as a sequence (`expected[:5]`, `join`, `len`):
a string list or a string (whose slice joins its characters) works, every
other value raises. -/
def asSeq : EvValue → Except String (List String)
  | .strList l => .ok l
  | .str s => .ok (s.data.map (fun c => String.mk [c]))
  | .num _ => .error "TypeError: float is not subscriptable"
  | .bool _ => .error "TypeError: bool is not subscriptable"
  | .none => .error "TypeError: NoneType is not subscriptable"

/-- `ExplainabilityEngine._explain_lease_cliff`. -/
def explainLeaseCliff (f : AuditFinding) : Except String String := do
  let prev_month := Evidence.getD f.evidence "prev_month" (.str "Unknown")
  let prev_rent ← asNum (Evidence.getD f.evidence "prev_rent" (.num 0))
  let curr_month := Evidence.getD f.evidence "curr_month" (.str "Unknown")
  let curr_rent ← asNum (Evidence.getD f.evidence "curr_rent" (.num 0))
  let drop_pct ← asNum (Evidence.getD f.evidence "drop_pct" (.num 0))
  pure ("Revenue cliff detected in Unit " ++ f.unit_number ++ ". Rent dropped from "
    ++ format_currency prev_rent ++ " in " ++ pyStrEv prev_month ++ " to "
    ++ format_currency curr_rent ++ " in " ++ pyStrEv curr_month ++ ", a decline of "
    ++ format_percentage drop_pct ++ " (" ++ format_currency (prev_rent - curr_rent)
    ++ "). This indicates a potential lease expiration or renewal issue.")

/-- `ExplainabilityEngine._explain_rent_proration`. -/
def explainRentProration (f : AuditFinding) : Except String String := do
  let expected ← asNum (Evidence.getD f.evidence "expected_rent" (.num 0))
  let actual ← asNum (Evidence.getD f.evidence "actual_rent" (.num 0))
  let month := Evidence.getD f.evidence "month" (.str "Unknown")
  let is_lease_start := Evidence.getD f.evidence "is_lease_start" (.bool false)
  if actual.blt expected then
    if evTruthy is_lease_start then
      pure ("Unit " ++ f.unit_number ++ " shows partial rent of " ++ format_currency actual
        ++ " in " ++ pyStrEv month ++ " (expected: " ++ format_currency expected
        ++ "). This appears to be a move-in proration, but verify the move-in date is correct.")
    else
      pure ("Unit " ++ f.unit_number ++ " charged " ++ format_currency actual ++ " in "
        ++ pyStrEv month ++ ", but expected base rent is " ++ format_currency expected
        ++ ". This is " ++ format_currency (expected - actual) ++ " less than expected. "
        ++ "Verify if there\x27s a valid proration or rent adjustment.")
  else
    pure ("Unit " ++ f.unit_number ++ " charged " ++ format_currency actual ++ " in "
      ++ pyStrEv month ++ ", which exceeds the base rent of " ++ format_currency expected
      ++ " by " ++ format_currency (actual - expected) ++ ". Verify this increase is authorized.")

/-- `ExplainabilityEngine._explain_concession_misaligned`. -/
def explainConcessionMisaligned (f : AuditFinding) : Except String String := do
  let month := Evidence.getD f.evidence "concession_month" (.str "Unknown")
  let amount ← asNum (Evidence.getD f.evidence "concession_amount" (.num 0))
  pure ("Unit " ++ f.unit_number ++ " has a concession of " ++ format_currency amount
    ++ " in " ++ pyStrEv month ++ ", but no rent charge in that month. "
    ++ "Concessions should align with the months when rent is charged.")

/-- `ExplainabilityEngine._explain_excessive_concession`. -/
def explainExcessiveConcession (f : AuditFinding) : Except String String := do
  let month := Evidence.getD f.evidence "month" (.str "Unknown")
  let rent ← asNum (Evidence.getD f.evidence "rent" (.num 0))
  let concession ← asNum (Evidence.getD f.evidence "concession" (.num 0))
  let conc_pct ← asNum (Evidence.getD f.evidence "concession_pct" (.num 0))
  pure ("Unit " ++ f.unit_number ++ " has an excessive concession in " ++ pyStrEv month
    ++ ". Rent: " ++ format_currency rent ++ ", Concession: " ++ format_currency concession
    ++ " (" ++ format_percentage conc_pct ++ " of rent). "
    ++ "Concessions exceeding 50% of rent should be reviewed for accuracy.")

/-- `ExplainabilityEngine._explain_missing_charges`. -/
def explainMissingCharges (f : AuditFinding) : Except String String := do
  let expected ← asSeq (Evidence.getD f.evidence "expected_fees" (.strList []))
  pure ("Unit " ++ f.unit_number ++ " is missing recurring charges. Expected fees include: "
    ++ String.intercalate ", " (expected.take 5)
    ++ (if 5 < expected.length then "..." else "")
    ++ ". Verify if these charges should be applied.")

/-- `ExplainabilityEngine._explain_fee_mismatch`. -/
def explainFeeMismatch (f : AuditFinding) : Except String String := do
  let fee_type := Evidence.getD f.evidence "fee_type" (.str "Unknown")
  let expected ← asNum (Evidence.getD f.evidence "expected_amount" (.num 0))
  let actual ← asNum (Evidence.getD f.evidence "actual_amount" (.num 0))
  let month := Evidence.getD f.evidence "month" (.str "Unknown")
  let diff := actual - expected
  pure ("Unit " ++ f.unit_number ++ " has incorrect " ++ pyStrEv fee_type ++ " amount in "
    ++ pyStrEv month ++ ". Expected: " ++ format_currency expected ++ ", Actual: "
    ++ format_currency actual ++ " (difference: " ++ format_currency diff.abs ++ " "
    ++ (if diff.bgt 0 then "over" else "under") ++ "). "
    ++ "Verify fee schedule is correctly applied.")

/-- `ExplainabilityEngine._explain_double_discount`. -/
def explainDoubleDiscount (f : AuditFinding) : Except String String := do
  let resident := Evidence.getD f.evidence "resident_name" (.str "Unknown")
  let total_conc ← asNum (Evidence.getD f.evidence "total_concessions" (.num 0))
  let conc_count := Evidence.getD f.evidence "concession_count" (.num 0)
  pure ("Unit " ++ f.unit_number ++ " (Resident: " ++ pyStrEv resident
    ++ ") is marked as an employee unit but also has " ++ pyStrEv conc_count
    ++ " concession(s) totaling " ++ format_currency total_conc
    ++ ". This may represent a double discount. Verify that employee allowance and "
    ++ "promotional concessions are not both applied.")

/-- `ExplainabilityEngine.explain`: dispatch on `rule_id`; unknown rules
fall back to the finding's own explanation or a fixed literal. -/
def explain (f : AuditFinding) : Except String String :=
  if f.rule_id == "LEASE_CLIFF" then explainLeaseCliff f
  else if f.rule_id == "RENT_PRORATION" then explainRentProration f
  else if f.rule_id == "CONCESSION_MISALIGNED" then explainConcessionMisaligned f
  else if f.rule_id == "EXCESSIVE_CONCESSION" then explainExcessiveConcession f
  else if f.rule_id == "MISSING_RECURRING_CHARGE" then explainMissingCharges f
  else if f.rule_id == "FEE_AMOUNT_MISMATCH" then explainFeeMismatch f
  else if f.rule_id == "DOUBLE_DISCOUNT" then explainDoubleDiscount f
  else .ok (if !f.explanation.data.isEmpty then f.explanation else "No explanation available")

/-- The seven rule ids `explain` dispatches on. -/
def knownRuleIds : List String :=
  ["LEASE_CLIFF", "RENT_PRORATION", "CONCESSION_MISALIGNED", "EXCESSIVE_CONCESSION",
   "MISSING_RECURRING_CHARGE", "FEE_AMOUNT_MISMATCH", "DOUBLE_DISCOUNT"]

/-- A key read numerically tolerates absence, numbers and booleans. -/
def numOk (ev : Evidence) (k : String) : Bool :=
  match Evidence.get ev k with
  | Option.none => true
  | some (.num _) => true
  | some (.bool _) => true
  | some _ => false

/-- A key read as a sequence tolerates absence, string lists and strings. -/
def seqOk (ev : Evidence) (k : String) : Bool :=
  match Evidence.get ev k with
  | Option.none => true
  | some (.strList _) => true
  | some (.str _) => true
  | some _ => false

/-- Well-typedness of an evidence dict for a rule's formatter: the keys the
formatter reads numerically hold numbers (or booleans) when present, and
`expected_fees` holds a sequence when present. -/
def evWellTypedFor (rule : String) (ev : Evidence) : Bool :=
  if rule == "LEASE_CLIFF" then
    numOk ev "prev_rent" && numOk ev "curr_rent" && numOk ev "drop_pct"
  else if rule == "RENT_PRORATION" then
    numOk ev "expected_rent" && numOk ev "actual_rent"
  else if rule == "CONCESSION_MISALIGNED" then numOk ev "concession_amount"
  else if rule == "EXCESSIVE_CONCESSION" then
    numOk ev "rent" && numOk ev "concession" && numOk ev "concession_pct"
  else if rule == "MISSING_RECURRING_CHARGE" then seqOk ev "expected_fees"
  else if rule == "FEE_AMOUNT_MISMATCH" then
    numOk ev "expected_amount" && numOk ev "actual_amount"
  else if rule == "DOUBLE_DISCOUNT" then numOk ev "total_concessions"
  else true

/-- Successful comparability of two findings under the detector's sort key. -/
def cmpOkB (f g : AuditFinding) : Bool :=
  match cmpKey f g with
  | .ok _ => true
  | .error _ => false

/- ### Concrete snapshots used by witnesses, counterexamples and scenarios -/

/-- A fixed current day for concrete runs. -/
def d0 : Date := ⟨2026, 3, 1⟩

/-- A deterministic stand-in for the stream of ids `generate_id` returns. -/
def gen0 : Nat → String := fun i => "finding_" ++ natToStr i

def jan26 : Date := ⟨2026, 1, 1⟩

def feb26 : Date := ⟨2026, 2, 1⟩

/-- Canonical model holding one unit `u1` with resident name "A". -/
def m2a : CanonicalModel :=
  ⟨[⟨"u1", "101", some "A", false, none, none, none⟩], [], defaultMappings⟩

/-- Incoming unit `u1` with (non-null) resident name "B". -/
def u2b : Unit := ⟨"u1", "101", some "B", false, none, none, none⟩

/-- Scenario A unit: base rent 1150, lease starting in January 2026. -/
def scAunit : Unit :=
  mkUnit ⟨"u1", "101", none, false, some ⟨2026, 1, 15⟩, none, some 1150⟩

/-- Scenario A transaction: a 698 dollar rent charge in January 2026. -/
def scAtxn : RecurringTransaction :=
  ⟨"t1", "u1", "101", "rent", none, 698, some jan26, none, "unknown"⟩

/-- Scenario C unit. -/
def scCunit : Unit := ⟨"uA", "A", none, false, none, none, none⟩

/-- Scenario C transactions: rent 2000 in January, rent 900 in February. -/
def scCtxns : List RecurringTransaction :=
  [⟨"t1", "uA", "A", "rent", none, 2000, some jan26, none, "unknown"⟩,
   ⟨"t2", "uA", "A", "rent", none, 900, some feb26, none, "unknown"⟩]

/-- Scenario D unit: employee marker on the resident name. -/
def scDunit : Unit :=
  mkUnit ⟨"u1", "101", some "*Clayton Curtis", false, none, none, none⟩

/-- Scenario D transaction: one concession of minus 676 dollars. -/
def scDtxn : RecurringTransaction :=
  ⟨"t1", "u1", "101", "concession", none, -(676 : PyF), none, none, "unknown"⟩

/-- Snapshot whose pass emits two findings of equal severity and unit
number, one with a month and one without: an employee unit with a
concession plus a rent cliff.  The extra uncategorised fee transaction
keeps MISSING_RECURRING_CHARGE from firing. -/
def c1unit : Unit := ⟨"u1", "101", some "Bob", true, none, none, none⟩

def c1txns : List RecurringTransaction :=
  [⟨"t1", "u1", "101", "rent", none, 2000, some jan26, none, "unknown"⟩,
   ⟨"t2", "u1", "101", "rent", none, 900, some feb26, none, "unknown"⟩,
   ⟨"t3", "u1", "101", "concession", none, -(100 : PyF), some jan26, none, "unknown"⟩,
   ⟨"t4", "u1", "101", "fee", none, 10, some jan26, none, "unknown"⟩]

/-- Pairwise comparability of the sort keys of a finding list. -/
def pairwiseCmpOk (l : List AuditFinding) : Bool :=
  l.all (fun f => l.all (fun g => cmpOkB f g))

/-- Finding used by the C10 counterexample: a known rule id with a
wrongly-typed numeric evidence value. -/
def c10bad : AuditFinding :=
  ⟨"f", "u", "101", "LEASE_CLIFF", "x", "Critical", none, none,
   [("prev_rent", .str "x")], "", "Open", "", none⟩

/-- Finding with a known rule id and empty evidence. -/
def c10empty : AuditFinding :=
  ⟨"f", "u", "101", "LEASE_CLIFF", "x", "Critical", none, none, [], "", "Open", "", none⟩

/- ## Theorems -/

/-- Decomposition of `updateFirstUnit` at the first matching unit. -/
theorem updateFirstUnit_decomp (l : List Unit) (uid : String) (f : Unit → Unit)
    (h : l.any (fun e => e.unit_id == uid) = true) :
    ∃ pre e post, l = pre ++ e :: post ∧
      (∀ x ∈ pre, (x.unit_id == uid) = false) ∧
      (e.unit_id == uid) = true ∧
      updateFirstUnit l uid f = pre ++ f e :: post := by
  induction l with
  | nil => simp at h
  | cons a t ih =>
    by_cases ha : (a.unit_id == uid) = true
    · exact ⟨[], a, t, rfl, by simp, ha, by simp [updateFirstUnit, ha]⟩
    · have ht : t.any (fun e => e.unit_id == uid) = true := by
        simp only [List.any_cons] at h
        rcases Bool.or_eq_true_iff.mp h with h1 | h1
        · exact absurd h1 ha
        · exact h1
      obtain ⟨pre, e, post, hsplit, hpre, he, hupd⟩ := ih ht
      refine ⟨a :: pre, e, post, by simp [hsplit], ?_, he, ?_⟩
      · intro x hx
        rcases List.mem_cons.mp hx with hx1 | hx1
        · subst hx1; exact Bool.not_eq_true _ ▸ (by simpa using ha)
        · exact hpre x hx1
      · simp [updateFirstUnit, ha, hupd]

/-- C2 (counterexample): `add_unit` on a model that already holds unit `u1`
with resident name "A" and an incoming `u1` with resident name "B" stores
"B": the incoming non-null field overwrites the existing non-null field,
contradicting first-non-null-wins. -/
theorem c2_counterexample :
    (add_unit m2a u2b).units.map (fun u => u.resident_name) = [some "B"] ∧
      ¬((add_unit m2a u2b).units.map (fun u => u.resident_name) = [some "A"]) := by
  decide

/-- C2 (amended): re-adding a unit whose `unit_id` already exists merges
rather than appends (the unit count is unchanged, and the first unit with
that id is replaced by the merge result), but the merge is
last-non-null-wins: every truthy (non-null, non-empty, non-zero) field of
the incoming unit overwrites the existing field, and the existing value is
kept only where the incoming field is falsy. -/
theorem c2_add_unit_merges (m : CanonicalModel) (u : Unit)
    (h : m.units.any (fun e => e.unit_id == u.unit_id) = true) :
    (add_unit m u).units.length = m.units.length ∧
    ∃ pre e post, m.units = pre ++ e :: post ∧
      (∀ x ∈ pre, (x.unit_id == u.unit_id) = false) ∧
      (e.unit_id == u.unit_id) = true ∧
      (add_unit m u).units = pre ++ mergeUnit e u :: post ∧
      (mergeUnit e u).unit_id = e.unit_id ∧
      (mergeUnit e u).unit_number = e.unit_number ∧
      (mergeUnit e u).resident_name =
        (if truthyOptStr u.resident_name then u.resident_name else e.resident_name) ∧
      (mergeUnit e u).is_employee_unit = (u.is_employee_unit || e.is_employee_unit) ∧
      (mergeUnit e u).lease_start =
        (if u.lease_start.isSome then u.lease_start else e.lease_start) ∧
      (mergeUnit e u).lease_end =
        (if u.lease_end.isSome then u.lease_end else e.lease_end) ∧
      (mergeUnit e u).base_rent =
        (if truthyOptF u.base_rent then u.base_rent else e.base_rent) := by
  obtain ⟨pre, e, post, hsplit, hpre, he, hupd⟩ :=
    updateFirstUnit_decomp m.units u.unit_id (fun x => mergeUnit x u) h
  have hunits : (add_unit m u).units = pre ++ mergeUnit e u :: post := by
    simp [add_unit, h, hupd]
  refine ⟨?_, pre, e, post, hsplit, hpre, he, hunits, rfl, rfl, rfl, rfl, rfl, rfl, rfl⟩
  rw [hunits, hsplit]
  simp

/-- C2 (witness). -/
theorem c2_witness : (add_unit m2a u2b).units.length = m2a.units.length :=
  (c2_add_unit_merges m2a u2b (by decide)).1

/-- C3: the fee round-trip closes for "Valet Trash Fee":
`normalize_category` maps it to subcategory `valet_trash`, the fee-template
table of FEE_AMOUNT_MISMATCH maps that back to "Valet Trash", and
"Valet Trash" is an entry of the recurring fee template (35 dollars). -/
theorem c3_fee_roundtrip :
    normalize_category yamlMappings "Valet Trash Fee" = ("fee", some "valet_trash") ∧
      map_fee_to_template "valet_trash" = some "Valet Trash" ∧
      templateLookup "Valet Trash" = some 35.00 := by
  decide

/-- Erasing `finding_id` commutes with positional id assignment. -/
theorem assignIds_map_tuple (gen : Nat → String) (i : Nat) (fs : List AuditFinding) :
    (assignIds gen i fs).map findingTuple = fs.map findingTuple := by
  induction fs generalizing i with
  | nil => rfl
  | cons f t ih => simp [assignIds, findingTuple, ih]

/-- Id assignment preserves the number of findings. -/
theorem assignIds_length (gen : Nat → String) (i : Nat) (fs : List AuditFinding) :
    (assignIds gen i fs).length = fs.length := by
  induction fs generalizing i with
  | nil => rfl
  | cons f t ih => simp [assignIds, ih]

/-- C4: running `run_all_rules` twice on the same snapshot (same current
day) yields finding lists with the same length and the same sequence of
`(unit_id, rule_id, month, severity, evidence)` tuples, for any ids the two
calls generate; in particular the second call starts from the engine state
left by the first and does not accumulate its findings. -/
theorem c4_run_all_rules_idempotent (e : RulesEngine) (gen1 gen2 : Nat → String)
    (today : Date) :
    ((run_all_rules (run_all_rules e gen1 today).2 gen2 today).1).map findingTuple
        = ((run_all_rules e gen1 today).1).map findingTuple ∧
      ((run_all_rules (run_all_rules e gen1 today).2 gen2 today).1).length
        = ((run_all_rules e gen1 today).1).length := by
  constructor
  · simp [run_all_rules, assignIds_map_tuple]
  · simp [run_all_rules, assignIds_length]

/-- C8: constructing a unit with resident name "*Clayton Curtis" stores
"Clayton Curtis" with `is_employee_unit` forced true (and re-normalizing the
constructed unit changes nothing, so the marker is stripped exactly once, at
creation); a full rules pass over that unit and one concession of -676
yields exactly one finding: DOUBLE_DISCOUNT, severity Critical, with
`total_concessions = 676` (sum of absolute values) and
`concession_count = 1`. -/
theorem c8_employee_marker_double_discount :
    scDunit.resident_name = some "Clayton Curtis" ∧
      scDunit.is_employee_unit = true ∧
      mkUnit scDunit = scDunit ∧
      (run_all_rules ⟨[scDunit], [scDtxn], []⟩ gen0 d0).1 =
        [⟨"finding_0", "u1", "101", "DOUBLE_DISCOUNT", "Double Discount Risk",
          "Critical", none, some (-(676 : PyF)),
          [("is_employee_unit", .bool true), ("resident_name", .str "Clayton Curtis"),
           ("total_concessions", .num 676), ("concession_count", .num (PyF.ofNat 1))],
          "", "Open", "", some d0⟩] := by
  decide

/-- C9: `normalize_category` is a pure function of the description and the
loaded mapping table, deciding by strict precedence with first match
winning: any concession-keyword match returns `(concession, None)` (even if
a rent keyword also matches); otherwise a credit match returns
`(credit, None)`; otherwise a rent match returns `(rent, None)`; otherwise
the first fee subcategory whose keyword list matches returns
`(fee, subcategory)`; otherwise `(other, None)`.  When the mapping source
is absent, `_load_mappings` uses the built-in default table, which holds
exactly the rent, concession and credit keyword lists (and no fee table). -/
theorem c9_normalize_category_precedence :
    (∀ (m : Mappings) (d : String),
        m.concession_categories.any (termMatches (strTrim (strLower d))) = true →
        normalize_category m d = ("concession", none)) ∧
    (∀ (m : Mappings) (d : String),
        m.concession_categories.any (termMatches (strTrim (strLower d))) = false →
        m.credit_categories.any (termMatches (strTrim (strLower d))) = true →
        normalize_category m d = ("credit", none)) ∧
    (∀ (m : Mappings) (d : String),
        m.concession_categories.any (termMatches (strTrim (strLower d))) = false →
        m.credit_categories.any (termMatches (strTrim (strLower d))) = false →
        m.rent_categories.any (termMatches (strTrim (strLower d))) = true →
        normalize_category m d = ("rent", none)) ∧
    (∀ (m : Mappings) (d : String) (sc : String) (terms : List String),
        m.concession_categories.any (termMatches (strTrim (strLower d))) = false →
        m.credit_categories.any (termMatches (strTrim (strLower d))) = false →
        m.rent_categories.any (termMatches (strTrim (strLower d))) = false →
        m.fee_categories.find? (fun p => p.2.any (termMatches (strTrim (strLower d))))
          = some (sc, terms) →
        normalize_category m d = ("fee", some sc)) ∧
    (∀ (m : Mappings) (d : String),
        m.concession_categories.any (termMatches (strTrim (strLower d))) = false →
        m.credit_categories.any (termMatches (strTrim (strLower d))) = false →
        m.rent_categories.any (termMatches (strTrim (strLower d))) = false →
        m.fee_categories.find? (fun p => p.2.any (termMatches (strTrim (strLower d))))
          = none →
        normalize_category m d = ("other", none)) ∧
    loadMappings none = defaultMappings ∧
    defaultMappings.rent_categories = ["Rent", "Base Rent", "Monthly Rent"] ∧
    defaultMappings.concession_categories = ["Concession", "Discount"] ∧
    defaultMappings.credit_categories = ["Credit", "Adjustment"] ∧
    defaultMappings.fee_categories = [] := by
  refine ⟨?_, ?_, ?_, ?_, ?_, rfl, rfl, rfl, rfl, rfl⟩
  · intro m d h1
    simp [normalize_category, h1]
  · intro m d h1 h2
    simp [normalize_category, h1, h2]
  · intro m d h1 h2 h3
    simp [normalize_category, h1, h2, h3]
  · intro m d sc terms h1 h2 h3 h4
    simp [normalize_category, h1, h2, h3, h4]
  · intro m d h1 h2 h3 h4
    simp [normalize_category, h1, h2, h3, h4]

/-- C9 (witness): "Monthly Rent Discount" matches both a concession keyword
and a rent keyword of the default table and is classified as a concession. -/
theorem c9_witness :
    normalize_category defaultMappings "Monthly Rent Discount" = ("concession", none) :=
  c9_normalize_category_precedence.1 defaultMappings "Monthly Rent Discount" (by decide)

/-- Defining equation of float subtraction through the `Sub` instance. -/
theorem pyf_sub_def (a b : PyF) : a - b = PyF.sub a b := rfl

/-- The literal `1.0` as a fraction. -/
theorem pyf_one_point_zero : (1.0 : PyF) = ⟨10, 9⟩ := rfl

/-- Trichotomy transfer: when two integers differ by more than a positive
amount they are distinct, so strictly-greater coincides with
not-strictly-less. -/
theorem int_far_ne (X Y D : Int) (hD : 0 < D)
    (h : 10 * D < ((X - Y).natAbs : Int) * 10) : Y < X ↔ ¬X < Y := by
  omega

/-- Within the one-dollar guard of RENT_PRORATION, `amount > base` is the
negation of `amount < base` (the two differ by more than a dollar, hence
are distinct rationals). -/
theorem pyf_gt_eq_not_lt_of_far (a b : PyF)
    (h : PyF.bgt ((a - b).abs) 1.0 = true) : PyF.bgt a b = !PyF.blt a b := by
  rw [pyf_sub_def] at h
  rw [pyf_one_point_zero] at h
  simp only [PyF.bgt, PyF.blt, PyF.abs, PyF.sub, PyF.den, decide_eq_true_eq] at h ⊢
  have hiff := int_far_ne (a.num * ((b.denPred : Int) + 1))
    (b.num * ((a.denPred : Int) + 1))
    ((a.denPred * b.denPred + a.denPred + b.denPred : Nat) + 1) (by positivity) (by
      push_cast at h ⊢
      omega)
  by_cases hlt : a.num * ((b.denPred : Int) + 1) < b.num * ((a.denPred : Int) + 1)
  · have hnot : ¬b.num * ((a.denPred : Int) + 1) < a.num * ((b.denPred : Int) + 1) :=
      fun hy => (hiff.mp hy) hlt
    simp [hlt, hnot]
  · simp [hlt, hiff.mpr hlt]

/-- C6: RENT_PRORATION fires exactly as the claim states.  The source's
asymmetric condition (`not is_proration or amount > base_rent`) coincides
with the claim's wording (not a valid proration, valid meaning lease-start
month and `amount < base_rent`), because inside the one-dollar guard the
amount cannot equal the base rent; a unit whose `base_rent` is unset (falsy,
i.e. `None` -- or the degenerate 0.0, which Python truthiness also treats
as unset) never fires, so removing such a unit leaves the findings
unchanged; and scenario A (base rent 1150, lease starting 2026-01, a 698
rent charge in 2026-01) produces no finding. -/
theorem c6_rent_proration :
    (∀ (units : List Unit) (txns : List RecurringTransaction) (today : Date),
        check_rent_proration_mismatch units txns today
          = rentProrationSpec units txns today) ∧
    (∀ (us1 us2 : List Unit) (u : Unit) (txns : List RecurringTransaction)
        (today : Date), u.base_rent = none →
        check_rent_proration_mismatch (us1 ++ u :: us2) txns today
          = check_rent_proration_mismatch (us1 ++ us2) txns today) ∧
    check_rent_proration_mismatch [scAunit] [scAtxn] d0 = [] := by
  refine ⟨?_, ?_, by decide⟩
  · intro units txns today
    simp only [check_rent_proration_mismatch, rentProrationSpec]
    congr 1
    funext u
    by_cases hb : truthyOptF u.base_rent
    · simp only [hb, Bool.not_true, Bool.false_eq_true, if_false]
      congr 1
      funext t
      by_cases hfar : PyF.bgt ((t.amount - u.base_rent.getD 0).abs) 1.0 = true
      · have hgt := pyf_gt_eq_not_lt_of_far t.amount (u.base_rent.getD 0) hfar
        simp only [hfar, hgt, if_true, Bool.true_and]
        cases isProrationB u t <;> cases PyF.blt t.amount (u.base_rent.getD 0) <;> simp
      · have hfar' : PyF.bgt ((t.amount - u.base_rent.getD 0).abs) 1.0 = false :=
          Bool.not_eq_true _ ▸ hfar
        simp [hfar']
    · have hb' : truthyOptF u.base_rent = false := Bool.not_eq_true _ ▸ hb
      simp [hb']
  · intro us1 us2 u txns today hnone
    have hf : truthyOptF u.base_rent = false := by rw [hnone]; rfl
    simp [check_rent_proration_mismatch, hf]

/-- C6 (witness): dropping a unit without base rent from the unit list
leaves the RENT_PRORATION findings unchanged on a concrete snapshot. -/
theorem c6_witness :
    check_rent_proration_mismatch ([] ++ scCunit :: []) scCtxns d0
      = check_rent_proration_mismatch ([] ++ []) scCtxns d0 :=
  c6_rent_proration.2.1 [] [] scCunit scCtxns d0 rfl

/-- Unfolding a guarded `filterMap` emission. -/
theorem ite_ite_some_eq (b1 b2 : Bool) (x f : α) :
    ((if b1 then if b2 then some x else none else none) = some f) ↔
      (b1 = true ∧ b2 = true ∧ f = x) := by
  cases b1 <;> cases b2 <;> simp [eq_comm]

/-- Defining equation of float division through the `Div` instance. -/
theorem pyf_div_def (a b : PyF) : a / b = PyF.div a b := rfl

/-- The zero literal as a fraction. -/
theorem pyf_zero : (0 : PyF) = ⟨0, 0⟩ := rfl

/-- The lease-cliff threshold as a fraction. -/
theorem pyf_threshold : LEASE_CLIFF_THRESHOLD = ⟨20, 99⟩ := rfl

/-- A zero-drop month pair can never exceed the lease-cliff threshold: with
positive previous rent, `(r - r) / r` is zero and `0 > 0.20` fails. -/
theorem cliff_no_fire_on_equal (r : PyF) (h : PyF.bgt r 0 = true) :
    PyF.bgt ((r - r) / r) LEASE_CLIFF_THRESHOLD = false := by
  have h0 : 0 < r.num := by
    simp only [PyF.bgt, PyF.blt, PyF.den, pyf_zero, decide_eq_true_eq] at h
    simpa using h
  rw [pyf_sub_def, pyf_div_def, pyf_threshold]
  simp only [PyF.div, PyF.sub, PyF.den]
  rw [if_pos h0]
  simp only [PyF.bgt, PyF.blt, PyF.den]
  simp only [sub_self, zero_mul, mul_zero]
  rw [decide_eq_false]
  omega

/-- C7: LEASE_CLIFF fires exactly one finding per consecutive pair of a
unit's sorted rent months whose previous rent is positive and whose drop
fraction exceeds the 0.20 threshold, with severity Critical iff the drop
exceeds 0.50 and High otherwise; a pair with equal rents never fires; and
scenario C (rent 2000 in Jan 2026, 900 in Feb 2026) yields exactly one
finding, severity Critical, with `drop_pct` equal to 0.55. -/
theorem c7_lease_cliff :
    (∀ (units : List Unit) (txns : List RecurringTransaction) (today : Date)
        (f : AuditFinding),
        f ∈ check_lease_cliff units txns today ↔
          ∃ uid pm, uid ∈ cliffUnitIds txns ∧
            pm ∈ consecPairs (sortDates (cliffMonths txns uid)) ∧
            PyF.bgt (monthlyRentSum txns uid pm.1) 0 = true ∧
            PyF.bgt ((monthlyRentSum txns uid pm.1 - monthlyRentSum txns uid pm.2) /
              monthlyRentSum txns uid pm.1) LEASE_CLIFF_THRESHOLD = true ∧
            f = cliffFinding units txns today uid pm) ∧
    (∀ (units : List Unit) (txns : List RecurringTransaction) (today : Date)
        (uid : String) (pm : Date × Date),
        (cliffFinding units txns today uid pm).severity =
          if PyF.bgt ((monthlyRentSum txns uid pm.1 - monthlyRentSum txns uid pm.2) /
              monthlyRentSum txns uid pm.1) 0.5 = true
          then SEVERITY_CRITICAL else SEVERITY_HIGH) ∧
    (∀ (r : PyF), PyF.bgt r 0 = true →
        PyF.bgt ((r - r) / r) LEASE_CLIFF_THRESHOLD = false) ∧
    (check_lease_cliff [scCunit] scCtxns d0
        = [cliffFinding [scCunit] scCtxns d0 "uA" (jan26, feb26)] ∧
      (cliffFinding [scCunit] scCtxns d0 "uA" (jan26, feb26)).severity
        = SEVERITY_CRITICAL ∧
      (match Evidence.get (cliffFinding [scCunit] scCtxns d0 "uA"
          (jan26, feb26)).evidence "drop_pct" with
        | some (.num q) => PyF.beq q 0.55
        | _ => false) = true) := by
  refine ⟨?_, fun _ _ _ _ _ => rfl, cliff_no_fire_on_equal, by decide, by decide, by decide⟩
  intro units txns today f
  simp only [check_lease_cliff, List.mem_flatMap, List.mem_filterMap, ite_ite_some_eq]
  constructor
  · rintro ⟨uid, huid, pm, hpm, h1, h2, hf⟩
    exact ⟨uid, pm, huid, hpm, h1, h2, hf⟩
  · rintro ⟨uid, pm, huid, hpm, h1, h2, hf⟩
    exact ⟨uid, huid, pm, hpm, h1, h2, hf⟩

/-- C7 (witness): the scenario C finding is a member of the LEASE_CLIFF
output, through the characterization. -/
theorem c7_witness :
    cliffFinding [scCunit] scCtxns d0 "uA" (jan26, feb26)
      ∈ check_lease_cliff [scCunit] scCtxns d0 :=
  (c7_lease_cliff.1 [scCunit] scCtxns d0
      (cliffFinding [scCunit] scCtxns d0 "uA" (jan26, feb26))).mpr
    ⟨"uA", (jan26, feb26), by decide, by decide, by decide, by decide, rfl⟩

/-- Defining equation of float addition through the `Add` instance. -/
theorem pyf_add_def (a b : PyF) : a + b = PyF.add a b := rfl

/-- Componentwise characterization of folding transactions into a bucket:
each category's transactions accumulate into their own component, and all
four categories accumulate (signed) into `net`. -/
theorem monthFold_char (l : List RecurringTransaction) (b : MonthBucket) :
    monthFold l b =
      ⟨((l.filter (fun t => t.category == "rent")).map (·.amount)).foldl PyF.add b.rent,
       ((l.filter (fun t => t.category == "concession")).map
         (fun t => t.amount.abs)).foldl PyF.add b.concessions,
       ((l.filter (fun t => t.category == "fee")).map (·.amount)).foldl PyF.add b.fees,
       ((l.filter (fun t => t.category == "credit")).map
         (fun t => t.amount.abs)).foldl PyF.add b.credits,
       ((l.filter netCat).map (·.amount)).foldl PyF.add b.net⟩ := by
  induction l generalizing b with
  | nil => rfl
  | cons t rest ih =>
    show monthFold rest (addTxnToBucket b t) = _
    rw [ih]
    by_cases h1 : t.category = "rent"
    · simp [addTxnToBucket, netCat, h1, List.filter_cons, pyf_add_def,
        (by decide : ("rent" : String) ≠ "concession"),
        (by decide : ("rent" : String) ≠ "fee"),
        (by decide : ("rent" : String) ≠ "credit")]
    · by_cases h2 : t.category = "concession"
      · simp [addTxnToBucket, netCat, h1, h2, List.filter_cons, pyf_add_def,
          (by decide : ("concession" : String) ≠ "rent"),
          (by decide : ("concession" : String) ≠ "fee"),
          (by decide : ("concession" : String) ≠ "credit")]
      · by_cases h3 : t.category = "fee"
        · simp [addTxnToBucket, netCat, h1, h2, h3, List.filter_cons, pyf_add_def,
            (by decide : ("fee" : String) ≠ "rent"),
            (by decide : ("fee" : String) ≠ "concession"),
            (by decide : ("fee" : String) ≠ "credit")]
        · by_cases h4 : t.category = "credit"
          · simp [addTxnToBucket, netCat, h1, h2, h3, h4, List.filter_cons, pyf_add_def,
              (by decide : ("credit" : String) ≠ "rent"),
              (by decide : ("credit" : String) ≠ "concession"),
              (by decide : ("credit" : String) ≠ "fee")]
          · simp [addTxnToBucket, netCat, h1, h2, h3, h4, List.filter_cons]

/-- Lookup after a single bucket update: only the updated month changes,
and an absent month starts from the empty bucket. -/
theorem alLookup_update (acc : List (Date × MonthBucket)) (m' : Date)
    (t : RecurringTransaction) (m : Date) :
    alLookup (updateMonthAL acc m' t) m =
      if m = m'
      then some (addTxnToBucket ((alLookup acc m').getD emptyBucket) t)
      else alLookup acc m := by
  induction acc with
  | nil =>
    by_cases h : m = m'
    · subst h; simp [updateMonthAL, alLookup]
    · have hb : (m' == m) = false := beq_eq_false_iff_ne.mpr (Ne.symm h)
      simp [updateMonthAL, alLookup, h, hb]
  | cons p rest ih =>
    obtain ⟨k, b⟩ := p
    simp only [updateMonthAL]
    by_cases hk : k = m'
    · have hkb : (k == m') = true := beq_iff_eq.mpr hk
      rw [if_pos hkb]
      subst hk
      by_cases hm : m = k
      · subst hm
        simp [alLookup, List.find?]
      · have h1 : (k == m) = false := beq_eq_false_iff_ne.mpr (fun hh => hm hh.symm)
        simp [alLookup, List.find?, h1, hm]
    · have hkb : (k == m') = false := beq_eq_false_iff_ne.mpr hk
      rw [if_neg (by simp [hkb])]
      by_cases hm : m = k
      · subst hm
        have hmne : ¬m = m' := hk
        simp [alLookup, List.find?, hmne]
      · have h1 : (k == m) = false := beq_eq_false_iff_ne.mpr (fun hh => hm hh.symm)
        simp only [alLookup, List.find?, h1, hkb]
        have hih := ih
        simp only [alLookup] at hih
        rw [hih]

/-- Lookup through the aggregation fold, generalized over the accumulated
dict: a month found in the accumulator keeps folding its transactions on
top; a new month appears iff some transaction carries it. -/
theorem agg_fold_lookup (l : List RecurringTransaction) :
    ∀ (acc : List (Date × MonthBucket)) (m : Date),
      alLookup (l.foldl aggStep acc) m =
        match alLookup acc m with
        | some b => some (monthFold (l.filter (fun t => t.month == some m)) b)
        | none =>
          if l.any (fun t => t.month == some m)
          then some (monthFold (l.filter (fun t => t.month == some m)) emptyBucket)
          else none := by
  induction l with
  | nil =>
    intro acc m
    cases hacc : alLookup acc m <;> simp [monthFold, hacc]
  | cons t rest ih =>
    intro acc m
    rw [List.foldl_cons]
    cases ht : t.month with
    | none =>
      have hne : (t.month == some m) = false := by rw [ht]; rfl
      rw [show aggStep acc t = acc from by simp [aggStep, ht]]
      rw [ih acc m]
      simp [List.filter_cons, List.any_cons, hne]
    | some m' =>
      rw [show aggStep acc t = updateMonthAL acc m' t from by simp [aggStep, ht]]
      rw [ih (updateMonthAL acc m' t) m, alLookup_update]
      by_cases hm : m = m'
      · subst hm
        have heq : (t.month == some m) = true := by rw [ht]; simp
        rw [if_pos rfl]
        cases hacc : alLookup acc m with
        | some b =>
          simp [hacc, heq, List.filter_cons, List.any_cons, monthFold]
        | none =>
          simp [hacc, heq, List.filter_cons, List.any_cons, monthFold]
      · have hne : (t.month == some m) = false := by
          rw [ht]
          exact beq_eq_false_iff_ne.mpr (by simpa using Ne.symm hm)
        rw [if_neg hm]
        simp [List.filter_cons, List.any_cons, hne]

/-- C5: the month dict produced by `aggregate_by_month` holds a bucket for
a month iff some filtered transaction carries that month (so transactions
with `month = None` contribute to no bucket), and that bucket is exactly
the claim's dual sign convention: rent and fees add their signed amounts to
their own bucket and to `net`; concessions and credits add absolute values
to their own bucket while their signed amount goes into `net`. -/
theorem c5_aggregate_by_month_sign_convention (txns : List RecurringTransaction)
    (s e : Option Date) (m : Date) :
    alLookup (aggregate_by_month txns s e) m =
      if (filter_by_date_range txns s e).any (fun t => t.month == some m)
      then some (bucketSpec (filter_by_date_range txns s e) m)
      else none := by
  rw [show aggregate_by_month txns s e
      = (filter_by_date_range txns s e).foldl aggStep [] from rfl]
  rw [agg_fold_lookup]
  rw [show alLookup [] m = none from rfl]
  by_cases h : (filter_by_date_range txns s e).any (fun t => t.month == some m) = true
  · rw [if_pos h]
    simp only [h, if_pos]
    rw [monthFold_char]
    rfl
  · rw [if_neg h]
    simp only [Bool.not_eq_true] at h
    simp [h]

/-- Python date `<` is asymmetric. -/
theorem date_blt_asymm (a b : Date) (h : Date.blt a b = true) :
    Date.blt b a = false := by
  rw [Bool.eq_false_iff]
  intro h2
  simp only [Date.blt, Bool.or_eq_true, Bool.and_eq_true, beq_iff_eq,
    decide_eq_true_eq] at h h2
  omega

/-- Swapping the arguments of the character-list comparison swaps the
verdict. -/
theorem cmpCharList_swap (s : List Char) :
    ∀ t, cmpCharList t s = (cmpCharList s t).swap := by
  induction s with
  | nil => intro t; cases t <;> rfl
  | cons a s ih =>
    intro t
    cases t with
    | nil => rfl
    | cons b t =>
      simp only [cmpCharList]
      by_cases h1 : a < b
      · rw [if_neg (lt_asymm h1), if_pos h1, if_pos h1]
        rfl
      · by_cases h2 : b < a
        · rw [if_pos h2, if_neg h1, if_pos h2]
          rfl
        · rw [if_neg h2, if_neg h1, if_neg h1, if_neg h2]
          exact ih t

/-- Swapping the arguments of the Python string comparison. -/
theorem cmpStr_swap (a b : String) : cmpStr b a = (cmpStr a b).swap :=
  cmpCharList_swap a.data b.data

/-- Swapping the arguments of the month-key comparison swaps a defined
verdict and preserves the `TypeError`. -/
theorem cmpMonthKey_swap (x y : MonthKey) :
    cmpMonthKey y x = Except.map Ordering.swap (cmpMonthKey x y) := by
  cases x with
  | emptyStr => cases y <;> rfl
  | date a =>
    cases y with
    | emptyStr => rfl
    | date b =>
      simp only [cmpMonthKey]
      by_cases hab : Date.blt a b = true
      · have hba := date_blt_asymm a b hab
        simp [hab, hba, Except.map, Ordering.swap]
      · have hab' : Date.blt a b = false := Bool.not_eq_true _ ▸ hab
        by_cases hba : Date.blt b a = true
        · simp [hab', hba, Except.map, Ordering.swap]
        · have hba' : Date.blt b a = false := Bool.not_eq_true _ ▸ hba
          simp [hab', hba', Except.map, Ordering.swap]

/-- Swapping the arguments of the full sort-key comparison. -/
theorem cmpKey_swap (f g : AuditFinding) :
    cmpKey g f = Except.map Ordering.swap (cmpKey f g) := by
  by_cases h1 : severityRank f.severity < severityRank g.severity
  · have h2 : ¬severityRank g.severity < severityRank f.severity := by omega
    simp [cmpKey, h1, h2, Except.map, Ordering.swap]
  · by_cases h2 : severityRank g.severity < severityRank f.severity
    · simp [cmpKey, h1, h2, Except.map, Ordering.swap]
    · simp only [cmpKey, if_neg h1, if_neg h2]
      have hsw := cmpStr_swap f.unit_number g.unit_number
      rcases hc : cmpStr f.unit_number g.unit_number with _ | _ | _
      · rw [hc] at hsw
        simp [hsw, Except.map, Ordering.swap]
      · rw [hc] at hsw
        simp only [hsw, Ordering.swap]
        exact cmpMonthKey_swap (monthKey f.month) (monthKey g.month)
      · rw [hc] at hsw
        simp [hsw, Except.map, Ordering.swap]

/-- A defined non-`gt` comparison gives the boolean key order. -/
theorem keyLeB_of_cmp (f g : AuditFinding) (o : Ordering)
    (h : cmpKey f g = .ok o) (hne : o ≠ .gt) : keyLeB f g = true := by
  cases o with
  | lt => simp [keyLeB, h]
  | eq => simp [keyLeB, h]
  | gt => exact absurd rfl hne

/-- A defined `gt` comparison gives the reversed boolean key order. -/
theorem keyLeB_of_gt (f g : AuditFinding) (h : cmpKey f g = .ok .gt) :
    keyLeB g f = true := by
  have hs := cmpKey_swap f g
  rw [h] at hs
  simp [keyLeB, hs, Except.map, Ordering.swap]

/-- Sorted insertion succeeds when the inserted finding is comparable with
every element, and yields a sorted permutation whose head is the inserted
finding or the old head. -/
theorem insertSortedE_spec (f : AuditFinding) :
    ∀ (l : List AuditFinding), (∀ g ∈ l, cmpOkB f g = true) →
      ∃ l', insertSortedE f l = .ok l' ∧ List.Perm l' (f :: l) ∧
        (isSortedByB keyLeB l = true → isSortedByB keyLeB l' = true) ∧
        (l'.head? = some f ∨ l'.head? = l.head?) := by
  intro l
  induction l with
  | nil =>
    intro _
    exact ⟨[f], rfl, List.Perm.refl _, fun _ => rfl, Or.inl rfl⟩
  | cons g t ih =>
    intro hcomp
    have hfg : cmpOkB f g = true := hcomp g (List.mem_cons_self g t)
    cases hc : cmpKey f g with
    | error e => simp [cmpOkB, hc] at hfg
    | ok o =>
      cases o with
      | lt =>
        refine ⟨f :: g :: t, by simp [insertSortedE, hc], List.Perm.refl _, ?_, Or.inl rfl⟩
        intro hs
        have hle : keyLeB f g = true := keyLeB_of_cmp f g .lt hc (by simp)
        simpa [isSortedByB, hle] using hs
      | eq =>
        refine ⟨f :: g :: t, by simp [insertSortedE, hc], List.Perm.refl _, ?_, Or.inl rfl⟩
        intro hs
        have hle : keyLeB f g = true := keyLeB_of_cmp f g .eq hc (by simp)
        simpa [isSortedByB, hle] using hs
      | gt =>
        have hcompt : ∀ x ∈ t, cmpOkB f x = true :=
          fun x hx => hcomp x (List.mem_cons_of_mem g hx)
        obtain ⟨t', ht', hperm, hsort, hhead⟩ := ih hcompt
        refine ⟨g :: t', by simp [insertSortedE, hc, ht', Except.map], ?_, ?_, Or.inr rfl⟩
        · exact (List.Perm.cons g hperm).trans (List.Perm.swap f g t)
        · intro hs
          cases t with
          | nil =>
            have ht2 : [f] = t' := by simpa [insertSortedE] using ht'
            subst ht2
            have hgf : keyLeB g f = true := keyLeB_of_gt f g hc
            simp [isSortedByB, hgf]
          | cons h2 t2 =>
            have hs1 : keyLeB g h2 = true := by
              simp only [isSortedByB, Bool.and_eq_true] at hs
              exact hs.1
            have hs2 : isSortedByB keyLeB (h2 :: t2) = true := by
              simp only [isSortedByB, Bool.and_eq_true] at hs
              exact hs.2
            have hsort' := hsort hs2
            cases t' with
            | nil =>
              have := hperm.length_eq
              simp at this
            | cons x t3 =>
              have hgx : keyLeB g x = true := by
                rcases hhead with hh | hh
                · have hx : x = f := by simpa using hh
                  rw [hx]
                  exact keyLeB_of_gt f g hc
                · have hx : x = h2 := by simpa using hh
                  subst hx
                  exact hs1
              simp only [isSortedByB, Bool.and_eq_true]
              exact ⟨hgx, hsort'⟩

/-- The detector's sort succeeds on a finding list whose keys are pairwise
comparable, returning a sorted permutation. -/
theorem sortFindingsE_spec :
    ∀ (l : List AuditFinding), pairwiseCmpOk l = true →
      ∃ l', sortFindingsE l = .ok l' ∧ List.Perm l' l ∧
        isSortedByB keyLeB l' = true := by
  intro l
  induction l with
  | nil => exact fun _ => ⟨[], rfl, List.Perm.refl _, rfl⟩
  | cons f t ih =>
    intro hp
    have hp' : ∀ x ∈ f :: t, ∀ y ∈ f :: t, cmpOkB x y = true := by
      simp only [pairwiseCmpOk, List.all_eq_true] at hp
      exact hp
    have hpt : pairwiseCmpOk t = true := by
      simp only [pairwiseCmpOk, List.all_eq_true]
      exact fun x hx y hy =>
        hp' x (List.mem_cons_of_mem f hx) y (List.mem_cons_of_mem f hy)
    obtain ⟨st, hst, hperm, hsort⟩ := ih hpt
    have hcomp : ∀ g ∈ st, cmpOkB f g = true := by
      intro g hg
      exact hp' f (List.mem_cons_self f t) g
        (List.mem_cons_of_mem f (hperm.mem_iff.mp hg))
    obtain ⟨l', hl', hperm', hsortp, _⟩ := insertSortedE_spec f st hcomp
    refine ⟨l', by simp [sortFindingsE, hst, hl'], ?_, hsortp hsort⟩
    exact hperm'.trans (List.Perm.cons f hperm)

/-- C1 (amended): whenever the findings of the pass have pairwise
comparable sort keys -- that is, no two findings with equal severity rank
and equal unit number differ in month presence -- `detect` returns normally
with a permutation of the pass's findings that is sorted ascending under
the key `(severity_rank, unit_number, month-or-empty-string)`; when a
`None` month meets a real month at equal severity rank and unit number, the
sort raises `TypeError` instead of ordering the `None` first (see the
counterexample). -/
theorem c1_detect_sorted (units : List Unit) (txns : List RecurringTransaction)
    (gen : Nat → String) (today : Date)
    (h : pairwiseCmpOk (run_all_rules ⟨units, txns, []⟩ gen today).1 = true) :
    ∃ l, detect units txns gen today = .ok l ∧
      List.Perm l (run_all_rules ⟨units, txns, []⟩ gen today).1 ∧
      isSortedByB keyLeB l = true := by
  obtain ⟨l, hs, hp, hsort⟩ := sortFindingsE_spec _ h
  exact ⟨l, hs, hp, hsort⟩

/-- C1 (witness): on the scenario C snapshot the pass emits a Critical
LEASE_CLIFF finding and a Low MISSING_RECURRING_CHARGE finding, whose keys
are comparable, so `detect` sorts them. -/
theorem c1_witness :
    ∃ l, detect [scCunit] scCtxns gen0 d0 = .ok l ∧
      List.Perm l (run_all_rules ⟨[scCunit], scCtxns, []⟩ gen0 d0).1 ∧
      isSortedByB keyLeB l = true :=
  c1_detect_sorted [scCunit] scCtxns gen0 d0 (by decide)

/-- C1 (counterexample): a unit with an employee-unit concession (month
`None`) and a rent cliff (month February 2026) yields two Critical findings
of the same unit number; sorting compares the date with the empty string
and `detect` raises `TypeError` instead of returning them sorted. -/
theorem c1_counterexample :
    (match detect [c1unit] c1txns gen0 d0 with
      | .error s => s == "TypeError: cannot compare datetime.date and str"
      | .ok _ => false) = true := by
  decide

/-- Monad laws of the error monad, by computation. -/
theorem except_bind_ok (a : α) (k : α → Except String β) :
    ((Except.ok a : Except String α) >>= k) = k a := rfl

/-- Reading a numerically-used key succeeds on well-typed evidence. -/
theorem asNum_ok (ev : Evidence) (k : String) (h : numOk ev k = true) :
    ∃ q, asNum (Evidence.getD ev k (.num 0)) = .ok q := by
  cases hg : Evidence.get ev k with
  | none => exact ⟨0, by simp [Evidence.getD, hg, asNum]⟩
  | some v =>
    cases v with
    | num q => exact ⟨q, by simp [Evidence.getD, hg, asNum]⟩
    | bool b => exact ⟨if b then 1 else 0, by simp [Evidence.getD, hg, asNum]⟩
    | str s => simp [numOk, hg] at h
    | none => simp [numOk, hg] at h
    | strList l => simp [numOk, hg] at h

/-- Reading `expected_fees` succeeds on well-typed evidence. -/
theorem asSeq_ok (ev : Evidence) (k : String) (h : seqOk ev k = true) :
    ∃ l, asSeq (Evidence.getD ev k (.strList [])) = .ok l := by
  cases hg : Evidence.get ev k with
  | none => exact ⟨[], by simp [Evidence.getD, hg, asSeq]⟩
  | some v =>
    cases v with
    | strList l => exact ⟨l, by simp [Evidence.getD, hg, asSeq]⟩
    | str s =>
      exact ⟨s.data.map (fun c => String.mk [c]), by simp [Evidence.getD, hg, asSeq]⟩
    | num q => simp [seqOk, hg] at h
    | bool b => simp [seqOk, hg] at h
    | none => simp [seqOk, hg] at h

/-- The LEASE_CLIFF formatter is total on well-typed evidence. -/
theorem explainLeaseCliff_ok (f : AuditFinding)
    (h1 : numOk f.evidence "prev_rent" = true)
    (h2 : numOk f.evidence "curr_rent" = true)
    (h3 : numOk f.evidence "drop_pct" = true) :
    ∃ s, explainLeaseCliff f = .ok s := by
  obtain ⟨q1, e1⟩ := asNum_ok _ _ h1
  obtain ⟨q2, e2⟩ := asNum_ok _ _ h2
  obtain ⟨q3, e3⟩ := asNum_ok _ _ h3
  exact ⟨_, by simp only [explainLeaseCliff, e1, e2, e3, except_bind_ok]; rfl⟩

/-- The RENT_PRORATION formatter is total on well-typed evidence. -/
theorem explainRentProration_ok (f : AuditFinding)
    (h1 : numOk f.evidence "expected_rent" = true)
    (h2 : numOk f.evidence "actual_rent" = true) :
    ∃ s, explainRentProration f = .ok s := by
  obtain ⟨q1, e1⟩ := asNum_ok _ _ h1
  obtain ⟨q2, e2⟩ := asNum_ok _ _ h2
  simp only [explainRentProration, e1, e2, except_bind_ok]
  by_cases hb1 : PyF.blt q2 q1 = true
  · by_cases hb2 :
      evTruthy (Evidence.getD f.evidence "is_lease_start" (.bool false)) = true
    · rw [if_pos hb1, if_pos hb2]
      exact ⟨_, rfl⟩
    · rw [if_pos hb1, if_neg hb2]
      exact ⟨_, rfl⟩
  · rw [if_neg hb1]
    exact ⟨_, rfl⟩

/-- The CONCESSION_MISALIGNED formatter is total on well-typed evidence. -/
theorem explainConcessionMisaligned_ok (f : AuditFinding)
    (h1 : numOk f.evidence "concession_amount" = true) :
    ∃ s, explainConcessionMisaligned f = .ok s := by
  obtain ⟨q1, e1⟩ := asNum_ok _ _ h1
  exact ⟨_, by simp only [explainConcessionMisaligned, e1, except_bind_ok]; rfl⟩

/-- The EXCESSIVE_CONCESSION formatter is total on well-typed evidence. -/
theorem explainExcessiveConcession_ok (f : AuditFinding)
    (h1 : numOk f.evidence "rent" = true)
    (h2 : numOk f.evidence "concession" = true)
    (h3 : numOk f.evidence "concession_pct" = true) :
    ∃ s, explainExcessiveConcession f = .ok s := by
  obtain ⟨q1, e1⟩ := asNum_ok _ _ h1
  obtain ⟨q2, e2⟩ := asNum_ok _ _ h2
  obtain ⟨q3, e3⟩ := asNum_ok _ _ h3
  exact ⟨_, by simp only [explainExcessiveConcession, e1, e2, e3, except_bind_ok]; rfl⟩

/-- The MISSING_RECURRING_CHARGE formatter is total on well-typed evidence. -/
theorem explainMissingCharges_ok (f : AuditFinding)
    (h1 : seqOk f.evidence "expected_fees" = true) :
    ∃ s, explainMissingCharges f = .ok s := by
  obtain ⟨l, e1⟩ := asSeq_ok _ _ h1
  exact ⟨_, by simp only [explainMissingCharges, e1, except_bind_ok]; rfl⟩

/-- The FEE_AMOUNT_MISMATCH formatter is total on well-typed evidence. -/
theorem explainFeeMismatch_ok (f : AuditFinding)
    (h1 : numOk f.evidence "expected_amount" = true)
    (h2 : numOk f.evidence "actual_amount" = true) :
    ∃ s, explainFeeMismatch f = .ok s := by
  obtain ⟨q1, e1⟩ := asNum_ok _ _ h1
  obtain ⟨q2, e2⟩ := asNum_ok _ _ h2
  exact ⟨_, by simp only [explainFeeMismatch, e1, e2, except_bind_ok]; rfl⟩

/-- The DOUBLE_DISCOUNT formatter is total on well-typed evidence. -/
theorem explainDoubleDiscount_ok (f : AuditFinding)
    (h1 : numOk f.evidence "total_concessions" = true) :
    ∃ s, explainDoubleDiscount f = .ok s := by
  obtain ⟨q1, e1⟩ := asNum_ok _ _ h1
  exact ⟨_, by simp only [explainDoubleDiscount, e1, except_bind_ok]; rfl⟩

/-- C10 (amended): for every finding with one of the seven known rule ids,
`explain` returns a string and never raises as long as the evidence is
well typed for the rule's formatter -- every key is defaulted when absent
(`Unknown` for strings, 0 for numbers, `False` for booleans, the empty list
for `expected_fees`), so arbitrary well-typed dicts, including the empty
dict, are safe; a wrongly-typed value at a numerically-read key raises
`TypeError` (see the counterexample).  For an unknown rule id, `explain`
returns the finding's own non-empty explanation, else the literal
"No explanation available". -/
theorem c10_explain_total (f : AuditFinding)
    (h : evWellTypedFor f.rule_id f.evidence = true) :
    (∃ s, explain f = .ok s) ∧
      (knownRuleIds.contains f.rule_id = false →
        explain f = .ok (if !f.explanation.data.isEmpty then f.explanation
          else "No explanation available")) := by
  by_cases h1 : (f.rule_id == "LEASE_CLIFF") = true
  · have hr : f.rule_id = "LEASE_CLIFF" := beq_iff_eq.mp h1
    have hE : explain f = explainLeaseCliff f := by simp [explain, h1]
    refine ⟨?_, fun hc => ?_⟩
    · rw [hE]
      simp only [evWellTypedFor, hr, beq_self_eq_true, if_true, Bool.and_eq_true] at h
      exact explainLeaseCliff_ok f h.1.1 h.1.2 h.2
    · rw [hr] at hc
      exact absurd hc (by decide)
  · have h1' : (f.rule_id == "LEASE_CLIFF") = false := Bool.not_eq_true _ ▸ h1
    by_cases h2 : (f.rule_id == "RENT_PRORATION") = true
    · have hr : f.rule_id = "RENT_PRORATION" := beq_iff_eq.mp h2
      have hE : explain f = explainRentProration f := by simp [explain, h1', h2]
      refine ⟨?_, fun hc => ?_⟩
      · rw [hE]
        simp only [evWellTypedFor, hr, beq_self_eq_true, if_true, Bool.and_eq_true,
          (by decide : (("RENT_PRORATION" : String) == "LEASE_CLIFF") = false),
          Bool.false_eq_true, if_false] at h
        exact explainRentProration_ok f h.1 h.2
      · rw [hr] at hc
        exact absurd hc (by decide)
    · have h2' : (f.rule_id == "RENT_PRORATION") = false := Bool.not_eq_true _ ▸ h2
      by_cases h3 : (f.rule_id == "CONCESSION_MISALIGNED") = true
      · have hr : f.rule_id = "CONCESSION_MISALIGNED" := beq_iff_eq.mp h3
        have hE : explain f = explainConcessionMisaligned f := by
          simp [explain, h1', h2', h3]
        refine ⟨?_, fun hc => ?_⟩
        · rw [hE]
          simp only [evWellTypedFor, hr, beq_self_eq_true, if_true,
            (by decide : (("CONCESSION_MISALIGNED" : String) == "LEASE_CLIFF") = false),
            (by decide : (("CONCESSION_MISALIGNED" : String) == "RENT_PRORATION") = false),
            Bool.false_eq_true, if_false] at h
          exact explainConcessionMisaligned_ok f h
        · rw [hr] at hc
          exact absurd hc (by decide)
      · have h3' : (f.rule_id == "CONCESSION_MISALIGNED") = false :=
          Bool.not_eq_true _ ▸ h3
        by_cases h4 : (f.rule_id == "EXCESSIVE_CONCESSION") = true
        · have hr : f.rule_id = "EXCESSIVE_CONCESSION" := beq_iff_eq.mp h4
          have hE : explain f = explainExcessiveConcession f := by
            simp [explain, h1', h2', h3', h4]
          refine ⟨?_, fun hc => ?_⟩
          · rw [hE]
            simp only [evWellTypedFor, hr, beq_self_eq_true, if_true, Bool.and_eq_true,
              (by decide : (("EXCESSIVE_CONCESSION" : String) == "LEASE_CLIFF") = false),
              (by decide : (("EXCESSIVE_CONCESSION" : String) == "RENT_PRORATION") = false),
              (by decide :
                (("EXCESSIVE_CONCESSION" : String) == "CONCESSION_MISALIGNED") = false),
              Bool.false_eq_true, if_false] at h
            exact explainExcessiveConcession_ok f h.1.1 h.1.2 h.2
          · rw [hr] at hc
            exact absurd hc (by decide)
        · have h4' : (f.rule_id == "EXCESSIVE_CONCESSION") = false :=
            Bool.not_eq_true _ ▸ h4
          by_cases h5 : (f.rule_id == "MISSING_RECURRING_CHARGE") = true
          · have hr : f.rule_id = "MISSING_RECURRING_CHARGE" := beq_iff_eq.mp h5
            have hE : explain f = explainMissingCharges f := by
              simp [explain, h1', h2', h3', h4', h5]
            refine ⟨?_, fun hc => ?_⟩
            · rw [hE]
              simp only [evWellTypedFor, hr, beq_self_eq_true, if_true,
                (by decide :
                  (("MISSING_RECURRING_CHARGE" : String) == "LEASE_CLIFF") = false),
                (by decide :
                  (("MISSING_RECURRING_CHARGE" : String) == "RENT_PRORATION") = false),
                (by decide :
                  (("MISSING_RECURRING_CHARGE" : String) == "CONCESSION_MISALIGNED")
                    = false),
                (by decide :
                  (("MISSING_RECURRING_CHARGE" : String) == "EXCESSIVE_CONCESSION")
                    = false),
                Bool.false_eq_true, if_false] at h
              exact explainMissingCharges_ok f h
            · rw [hr] at hc
              exact absurd hc (by decide)
          · have h5' : (f.rule_id == "MISSING_RECURRING_CHARGE") = false :=
              Bool.not_eq_true _ ▸ h5
            by_cases h6 : (f.rule_id == "FEE_AMOUNT_MISMATCH") = true
            · have hr : f.rule_id = "FEE_AMOUNT_MISMATCH" := beq_iff_eq.mp h6
              have hE : explain f = explainFeeMismatch f := by
                simp [explain, h1', h2', h3', h4', h5', h6]
              refine ⟨?_, fun hc => ?_⟩
              · rw [hE]
                simp only [evWellTypedFor, hr, beq_self_eq_true, if_true,
                  Bool.and_eq_true,
                  (by decide : (("FEE_AMOUNT_MISMATCH" : String) == "LEASE_CLIFF") = false),
                  (by decide :
                    (("FEE_AMOUNT_MISMATCH" : String) == "RENT_PRORATION") = false),
                  (by decide :
                    (("FEE_AMOUNT_MISMATCH" : String) == "CONCESSION_MISALIGNED") = false),
                  (by decide :
                    (("FEE_AMOUNT_MISMATCH" : String) == "EXCESSIVE_CONCESSION") = false),
                  (by decide :
                    (("FEE_AMOUNT_MISMATCH" : String) == "MISSING_RECURRING_CHARGE")
                      = false),
                  Bool.false_eq_true, if_false] at h
                exact explainFeeMismatch_ok f h.1 h.2
              · rw [hr] at hc
                exact absurd hc (by decide)
            · have h6' : (f.rule_id == "FEE_AMOUNT_MISMATCH") = false :=
                Bool.not_eq_true _ ▸ h6
              by_cases h7 : (f.rule_id == "DOUBLE_DISCOUNT") = true
              · have hr : f.rule_id = "DOUBLE_DISCOUNT" := beq_iff_eq.mp h7
                have hE : explain f = explainDoubleDiscount f := by
                  simp [explain, h1', h2', h3', h4', h5', h6', h7]
                refine ⟨?_, fun hc => ?_⟩
                · rw [hE]
                  simp only [evWellTypedFor, hr, beq_self_eq_true, if_true,
                    (by decide : (("DOUBLE_DISCOUNT" : String) == "LEASE_CLIFF") = false),
                    (by decide :
                      (("DOUBLE_DISCOUNT" : String) == "RENT_PRORATION") = false),
                    (by decide :
                      (("DOUBLE_DISCOUNT" : String) == "CONCESSION_MISALIGNED") = false),
                    (by decide :
                      (("DOUBLE_DISCOUNT" : String) == "EXCESSIVE_CONCESSION") = false),
                    (by decide :
                      (("DOUBLE_DISCOUNT" : String) == "MISSING_RECURRING_CHARGE")
                        = false),
                    (by decide :
                      (("DOUBLE_DISCOUNT" : String) == "FEE_AMOUNT_MISMATCH") = false),
                    Bool.false_eq_true, if_false] at h
                  exact explainDoubleDiscount_ok f h
                · rw [hr] at hc
                  exact absurd hc (by decide)
              · have h7' : (f.rule_id == "DOUBLE_DISCOUNT") = false :=
                  Bool.not_eq_true _ ▸ h7
                have hE : explain f = .ok (if !f.explanation.data.isEmpty
                    then f.explanation else "No explanation available") := by
                  simp only [explain, h1', h2', h3', h4', h5', h6', h7',
                    Bool.false_eq_true, if_false]
                exact ⟨⟨_, hE⟩, fun _ => hE⟩

/-- C10 (witness): a LEASE_CLIFF finding with an empty evidence dict is
explained without raising. -/
theorem c10_witness : ∃ s, explain c10empty = .ok s :=
  (c10_explain_total c10empty (by decide)).1

/-- C10 (counterexample): a LEASE_CLIFF finding whose evidence holds the
string "x" under `prev_rent` makes `explain` raise `TypeError` (Python
cannot format a `str` as currency), so `explain` does not return a string
for every finding with a known rule id and an arbitrary evidence dict. -/
theorem c10_counterexample :
    (match explain c10bad with
      | .error s => s == "TypeError: unsupported operand or format for str"
      | .ok _ => false) = true := by
  decide

end Audit
